import Mathlib

/-!
Yearn plugin: contract initialisation, vault registries and dispatcher

A shallow embedding of `handle_init_contract` (`src/handle_init_contract.c`) and, from
`src/main.c`, of the selector table `YEARN_SELECTORS`, of the vault registries `YEARN_VAULTS`
and `IRON_BANK` and of `dispatch_plugin_calls`, followed by the properties of the
initialisation phase, of the registries and of the dispatcher.

Bytes are natural numbers, byte arrays are lists of bytes, and the message structure that
the C handler mutates through a pointer is passed in and returned.  The header
`yearn_plugin.h` and the Ethereum plugin SDK headers are not part of the sources at hand;
what the handler needs from them is gathered in `plugin_header` (values that the sources
do not determine, taken as parameters) and in the definitions marked as modelled.
-/

namespace Yearn

/-! ## Constants and types of the missing headers -/

/-- Modelled from the spec: the macro `SELECTOR_SIZE` of `yearn_plugin.h`, which is not among
the sources; a method selector is 4 bytes, and every selector array of `main.c` has four
initialisers. -/
def SELECTOR_SIZE : Nat := 4

/-- Modelled from the spec: the macro `NUM_SELECTORS` of `yearn_plugin.h`, which is not among
the sources; the initialiser of `YEARN_SELECTORS` lists 17 selectors, one per operation. -/
def NUM_SELECTORS : Nat := 17

/-- Modelled from the spec: the enumerator `DEPOSIT_ALL` of the selector enum of
`yearn_plugin.h` (not among the sources); `main.c` requires the enum to follow the order of
`YEARN_SELECTORS`, so the enumerators are numbered by their position in that table. -/
def DEPOSIT_ALL : Nat := 0
/-- Modelled from the spec: enumerator of the selector enum, second table position. -/
def DEPOSIT : Nat := 1
/-- Modelled from the spec: enumerator of the selector enum, third table position. -/
def DEPOSIT_TO : Nat := 2
/-- Modelled from the spec: enumerator of the selector enum, table position 3. -/
def WITHDRAW_ALL : Nat := 3
/-- Modelled from the spec: enumerator of the selector enum, table position 4. -/
def WITHDRAW : Nat := 4
/-- Modelled from the spec: enumerator of the selector enum, table position 5. -/
def WITHDRAW_TO : Nat := 5
/-- Modelled from the spec: enumerator of the selector enum, table position 6. -/
def WITHDRAW_TO_SLIPPAGE : Nat := 6
/-- Modelled from the spec: enumerator of the selector enum, table position 7. -/
def ZAP_IN : Nat := 7
/-- Modelled from the spec: enumerator of the selector enum, table position 8. -/
def ZAP_IN_PICKLE : Nat := 8
/-- Modelled from the spec: enumerator of the selector enum, table position 9. -/
def IB_MINT : Nat := 9
/-- Modelled from the spec: enumerator of the selector enum, table position 10. -/
def IB_REDEEM : Nat := 10
/-- Modelled from the spec: enumerator of the selector enum, table position 11. -/
def IB_REDEEM_UNDERLYING : Nat := 11
/-- Modelled from the spec: enumerator of the selector enum, table position 12. -/
def IB_BORROW : Nat := 12
/-- Modelled from the spec: enumerator of the selector enum, table position 13. -/
def IB_REPAY_BORROW : Nat := 13
/-- Modelled from the spec: enumerator of the selector enum, table position 14. -/
def CLAIM : Nat := 14
/-- Modelled from the spec: enumerator of the selector enum, table position 15. -/
def EXIT : Nat := 15
/-- Modelled from the spec: enumerator of the selector enum, table position 16. -/
def GET_REWARDS : Nat := 16

/-- Modelled from the spec: the values of the missing headers that neither the sources nor
the spec determine, taken as parameters of the handler: the interface version the plugin
was built against, the size of `context_t`, and the numeric values of the two
parameter-slot enumerators that `handle_init_contract` assigns. -/
structure plugin_header where
  ETH_PLUGIN_INTERFACE_VERSION_LATEST : Nat
  sizeof_context_t : Nat
  AMOUNT : Nat
  ZAP_TOKEN : Nat
deriving DecidableEq, Repr

/-- Modelled from the spec: the status codes of the plugin SDK (its header is not among the
sources) that `handle_init_contract` stores in `msg->result`: ok, unavailable, error. -/
inductive eth_plugin_result_t where
  | ETH_PLUGIN_RESULT_ERROR
  | ETH_PLUGIN_RESULT_UNAVAILABLE
  | ETH_PLUGIN_RESULT_OK
deriving DecidableEq, Repr

open eth_plugin_result_t

/-- Modelled from the spec: the decode context `context_t` of `yearn_plugin.h` (not among the
sources).  The handler names two members, `selectorIndex` (the selected operation) and
`next_param` (the slot the next word fills); every other member (decoded words, counters,
flags) is kept as the sequence of its bytes in `other_fields`. -/
structure context_t where
  selectorIndex : Nat
  next_param : Nat
  other_fields : List Nat
deriving DecidableEq, Repr

/-- Modelled from the spec: the message `ethPluginInitContract_t` of the plugin SDK (its header
is not among the sources), with the members the handler reads or writes.  `pluginContext`
is the content of the buffer the pointer of that name refers to, `selector` the bytes the
selector pointer refers to. -/
structure ethPluginInitContract_t where
  interfaceVersion : Nat
  result : eth_plugin_result_t
  pluginContext : context_t
  pluginContextLength : Nat
  selector : List Nat
deriving DecidableEq, Repr

/-! ## The selector table of `main.c` -/

def DEPOSIT_ALL_SELECTOR : List Nat := [0xd0, 0xe3, 0x0d, 0xb0]
def DEPOSIT_SELECTOR : List Nat := [0xb6, 0xb5, 0x5f, 0x25]
def DEPOSIT_TO_SELECTOR : List Nat := [0x6e, 0x55, 0x3f, 0x65]
def WITHDRAW_ALL_SELECTOR : List Nat := [0x3c, 0xcf, 0xd6, 0x0b]
def WITHDRAW_SELECTOR : List Nat := [0x2e, 0x1a, 0x7d, 0x4d]
def WITHDRAW_TO_SELECTOR : List Nat := [0x00, 0xf7, 0x14, 0xce]
def WITHDRAW_TO_SLIPPAGE_SELECTOR : List Nat := [0xe6, 0x36, 0x97, 0xc8]
def ZAP_IN_SELECTOR : List Nat := [0x38, 0xb3, 0x2e, 0x68]
def ZAP_IN_PICKLE_SELECTOR : List Nat := [0x28, 0x93, 0x20, 0x94]
def IB_MINT_SELECTOR : List Nat := [0xa0, 0x71, 0x2d, 0x68]
def IB_REDEEM_SELECTOR : List Nat := [0xdb, 0x00, 0x6a, 0x75]
def IB_REDEEM_UNDERLYING_SELECTOR : List Nat := [0x85, 0x2a, 0x12, 0xe3]
def IB_BORROW_SELECTOR : List Nat := [0xc5, 0xeb, 0xea, 0xec]
def IB_REPAY_BORROW_SELECTOR : List Nat := [0x0e, 0x75, 0x27, 0x02]
def CLAIM_SELECTOR : List Nat := [0x4e, 0x71, 0xd9, 0x2d]
def EXIT_SELECTOR : List Nat := [0xe9, 0xfa, 0xd8, 0xee]
def GET_REWARDS_SELECTOR : List Nat := [0x3d, 0x18, 0xb9, 0x12]

/-- The array `YEARN_SELECTORS` of `main.c`, in the order of its initialiser. -/
def YEARN_SELECTORS : List (List Nat) :=
  [DEPOSIT_ALL_SELECTOR,
   DEPOSIT_SELECTOR,
   DEPOSIT_TO_SELECTOR,
   WITHDRAW_ALL_SELECTOR,
   WITHDRAW_SELECTOR,
   WITHDRAW_TO_SELECTOR,
   WITHDRAW_TO_SLIPPAGE_SELECTOR,
   ZAP_IN_SELECTOR,
   ZAP_IN_PICKLE_SELECTOR,
   IB_MINT_SELECTOR,
   IB_REDEEM_SELECTOR,
   IB_REDEEM_UNDERLYING_SELECTOR,
   IB_BORROW_SELECTOR,
   IB_REPAY_BORROW_SELECTOR,
   CLAIM_SELECTOR,
   EXIT_SELECTOR,
   GET_REWARDS_SELECTOR]

/-! ## Library functions used by the handler -/

/-- The C library `memcmp` on the first `n` bytes of two byte sequences: `0` when they agree,
otherwise the sign of the first difference.  A sequence shorter than `n` is compared as a
proper prefix (in C both arguments must have `n` readable bytes). -/
def memcmp : List Nat → List Nat → Nat → Int
  | _, _, 0 => 0
  | [], [], _ + 1 => 0
  | [], _ :: _, _ + 1 => -1
  | _ :: _, [], _ + 1 => 1
  | a :: s1, b :: s2, n + 1 =>
    if a < b then -1 else if b < a then 1 else memcmp s1 s2 n

/-- The address translation `PIC` of the device SDK: it relocates a pointer and leaves the
bytes it points to as they are. -/
def PIC (p : List Nat) : List Nat := p

/-- The call `memset(context, 0, sizeof(*context))`: every byte of every member becomes 0. -/
def memset_zero (context : context_t) : context_t :=
  { selectorIndex := 0
    next_param := 0
    other_fields := context.other_fields.map (fun _ => 0) }

/-! ## `handle_init_contract` -/

/-- The `for` loop of `handle_init_contract`, from the counter value `i`, with `fuel` bounding
the number of iterations.  It returns the final value of `i` and the context: on the first
`i < NUM_SELECTORS` whose table entry equals the selector it stores `i` in `selectorIndex`
and breaks; otherwise it leaves the loop with `i = NUM_SELECTORS`.  The counter is a
`uint8_t`, hence the reduction of `i + 1` modulo 256. -/
def selector_loop (selector : List Nat) (context : context_t) : Nat → Nat → Nat × context_t
  | 0, i => (i, context)
  | fuel + 1, i =>
    if i < NUM_SELECTORS then
      if memcmp (PIC (YEARN_SELECTORS.getD i [])) selector SELECTOR_SIZE = 0 then
        (i, { context with selectorIndex := i })
      else
        selector_loop selector context fuel ((i + 1) % 256)
    else
      (i, context)

/-- The function `handle_init_contract` of `handle_init_contract.c`: the message after the
call.  The loop gets `NUM_SELECTORS + 1` units of fuel, one more than its longest run, so
it always ends on its own condition or on `break`. -/
def handle_init_contract (hdr : plugin_header) (msg : ethPluginInitContract_t) :
    ethPluginInitContract_t :=
  if msg.interfaceVersion ≠ hdr.ETH_PLUGIN_INTERFACE_VERSION_LATEST then
    { msg with result := ETH_PLUGIN_RESULT_UNAVAILABLE }
  else if msg.pluginContextLength < hdr.sizeof_context_t then
    { msg with result := ETH_PLUGIN_RESULT_ERROR }
  else
    let context := memset_zero msg.pluginContext
    let scan := selector_loop msg.selector context (NUM_SELECTORS + 1) 0
    let i := scan.1
    let context := scan.2
    let msg := if i = NUM_SELECTORS then { msg with result := ETH_PLUGIN_RESULT_UNAVAILABLE } else msg
    let s := context.selectorIndex
    if s = DEPOSIT_ALL ∨ s = WITHDRAW_ALL ∨ s = CLAIM ∨ s = EXIT ∨ s = GET_REWARDS then
      { msg with pluginContext := context, result := ETH_PLUGIN_RESULT_OK }
    else if s = DEPOSIT ∨ s = DEPOSIT_TO ∨ s = WITHDRAW ∨ s = WITHDRAW_TO
        ∨ s = WITHDRAW_TO_SLIPPAGE ∨ s = IB_MINT ∨ s = IB_REDEEM ∨ s = IB_REDEEM_UNDERLYING
        ∨ s = IB_BORROW ∨ s = IB_REPAY_BORROW then
      { msg with pluginContext := { context with next_param := hdr.AMOUNT },
                 result := ETH_PLUGIN_RESULT_OK }
    else if s = ZAP_IN ∨ s = ZAP_IN_PICKLE then
      { msg with pluginContext := { context with next_param := hdr.ZAP_TOKEN },
                 result := ETH_PLUGIN_RESULT_OK }
    else
      { msg with pluginContext := context, result := ETH_PLUGIN_RESULT_ERROR }

/-! ## The vault registries of `main.c` -/

/-- Modelled from the spec: the macro `ADDRESS_LENGTH` of the missing headers; a contract
address is 20 bytes, and every address of the two registries has twenty initialisers. -/
def ADDRESS_LENGTH : Nat := 20

/-- Modelled from the spec: the macro `NUM_YEARN_VAULTS` of `yearn_plugin.h`, which is not
among the sources; the initialiser of `YEARN_VAULTS` lists 85 entries. -/
def NUM_YEARN_VAULTS : Nat := 85

/-- Modelled from the spec: the macro `NUM_IRON_BANK` of `yearn_plugin.h`, which is not among
the sources; the initialiser of `IRON_BANK` lists 32 entries. -/
def NUM_IRON_BANK : Nat := 32

/-- Modelled from the spec: the record `yearnVaultDefinition_t` of `yearn_plugin.h` (not among
the sources): the 20-byte contract address, the symbol of the underlying asset, the symbol of
the vault share and the decimal precision, in the order of the initialisers of `main.c`. -/
structure yearnVaultDefinition_t where
  address : List Nat
  underlying_symbol : String
  vault_symbol : String
  decimals : Nat
deriving DecidableEq, Repr

/-- The array `YEARN_VAULTS` of `main.c`, in the order of its initialiser. -/
def YEARN_VAULTS : List yearnVaultDefinition_t :=
  [yearnVaultDefinition_t.mk
     [0xbf, 0xa4, 0xd8, 0xaa, 0x6d, 0x8a, 0x37, 0x9a, 0xbf, 0xe7,
      0x79, 0x33, 0x99, 0xd3, 0xdd, 0xac, 0xc5, 0xbb, 0xec, 0xbb]
     "DAI" "yvDAI" 18,
   yearnVaultDefinition_t.mk
     [0xe2, 0xf6, 0xb9, 0x77, 0x3b, 0xf3, 0xa0, 0x15, 0xe2, 0xaa,
      0x70, 0x74, 0x1b, 0xde, 0x14, 0x98, 0xbd, 0xb9, 0x42, 0x5b]
     "USDC" "yvUSDC" 6,
   yearnVaultDefinition_t.mk
     [0xe1, 0x1b, 0xa4, 0x72, 0xf7, 0x48, 0x69, 0x17, 0x66, 0x52,
      0xc3, 0x5d, 0x30, 0xdb, 0x89, 0x85, 0x4b, 0x5a, 0xe8, 0x4d]
     "HEGIC" "yvHEGIC" 18,
   yearnVaultDefinition_t.mk
     [0x19, 0xd3, 0x36, 0x4a, 0x39, 0x9d, 0x25, 0x1e, 0x89, 0x4a,
      0xc7, 0x32, 0x65, 0x1b, 0xe8, 0xb0, 0xe4, 0xe8, 0x50, 0x01]
     "DAI" "yvDAI" 18,
   yearnVaultDefinition_t.mk
     [0x5f, 0x18, 0xc7, 0x5a, 0xbd, 0xae, 0x57, 0x8b, 0x48, 0x3e,
      0x5f, 0x43, 0xf1, 0x2a, 0x39, 0xcf, 0x75, 0xb9, 0x73, 0xa9]
     "USDC" "yvUSDC" 6,
   yearnVaultDefinition_t.mk
     [0xdc, 0xd9, 0x0c, 0x7f, 0x63, 0x24, 0xcf, 0xa4, 0x0d, 0x71,
      0x69, 0xef, 0x80, 0xb1, 0x20, 0x31, 0x77, 0x0b, 0x43, 0x25]
     "stETH" "yvCurve-stETH" 18,
   yearnVaultDefinition_t.mk
     [0xcb, 0x55, 0x0a, 0x6d, 0x4c, 0x8e, 0x35, 0x17, 0xa9, 0x39,
      0xbc, 0x79, 0xd0, 0xc7, 0x09, 0x3e, 0xb7, 0xcf, 0x56, 0xb5]
     "WBTC" "yvWBTC" 8,
   yearnVaultDefinition_t.mk
     [0x98, 0x6b, 0x4a, 0xff, 0x58, 0x8a, 0x10, 0x9c, 0x09, 0xb5,
      0x0a, 0x03, 0xf4, 0x2e, 0x41, 0x10, 0xe2, 0x9d, 0x35, 0x3f]
     "sETH" "yvCurve-sETH" 18,
   yearnVaultDefinition_t.mk
     [0xa9, 0xfe, 0x46, 0x01, 0x81, 0x12, 0x13, 0xc3, 0x40, 0xe8,
      0x50, 0xea, 0x30, 0x54, 0x81, 0xaf, 0xf0, 0x2f, 0x5b, 0x28]
     "WETH" "yvWETH" 18,
   yearnVaultDefinition_t.mk
     [0xe1, 0x4d, 0x13, 0xd8, 0xb3, 0xb8, 0x5a, 0xf7, 0x91, 0xb2,
      0xaa, 0xdd, 0x66, 0x1c, 0xdb, 0xd5, 0xe6, 0x09, 0x7d, 0xb1]
     "YFI" "yvYFI" 18,
   yearnVaultDefinition_t.mk
     [0xb8, 0xc3, 0xb7, 0xa2, 0xa6, 0x18, 0xc5, 0x52, 0xc2, 0x3b,
      0x1e, 0x47, 0x01, 0x10, 0x9a, 0x9e, 0x75, 0x6b, 0xab, 0x67]
     "1INCH" "yv1INCH" 18,
   yearnVaultDefinition_t.mk
     [0x27, 0xb7, 0xb1, 0xad, 0x72, 0x88, 0x07, 0x9a, 0x66, 0xd1,
      0x23, 0x50, 0xc8, 0x28, 0xd3, 0xc0, 0x0a, 0x6f, 0x07, 0xd7]
     "IronBank" "yvCurve-IronBank" 18,
   yearnVaultDefinition_t.mk
     [0x62, 0x5b, 0x7d, 0xf2, 0xfa, 0x8a, 0xbe, 0x21, 0xb0, 0xa9,
      0x76, 0x73, 0x6c, 0xda, 0x47, 0x75, 0x52, 0x3a, 0xed, 0x1e]
     "HBTC" "yvCurve-HBTC" 18,
   yearnVaultDefinition_t.mk
     [0x9d, 0x40, 0x9a, 0x0a, 0x01, 0x2c, 0xfb, 0xa9, 0xb1, 0x5f,
      0x6d, 0x4b, 0x36, 0xac, 0x57, 0xa4, 0x69, 0x66, 0xab, 0x9a]
     "yveCRV" "yvBOOST" 18,
   yearnVaultDefinition_t.mk
     [0x84, 0x14, 0xdb, 0x07, 0xa7, 0xf7, 0x43, 0xde, 0xba, 0xfb,
      0x40, 0x20, 0x70, 0xab, 0x01, 0xa4, 0xe0, 0xd2, 0xe4, 0x5e]
     "sBTC" "yvCurve-sBTC" 18,
   yearnVaultDefinition_t.mk
     [0x70, 0x47, 0xf9, 0x02, 0x29, 0xa0, 0x57, 0xc1, 0x3b, 0xf8,
      0x47, 0xc0, 0x74, 0x4d, 0x64, 0x6c, 0xfb, 0x6c, 0x9e, 0x1a]
     "renBTC" "yvCurve-renBTC" 18,
   yearnVaultDefinition_t.mk
     [0xb4, 0xd1, 0xbe, 0x44, 0xbf, 0xf4, 0x0a, 0xd6, 0xe5, 0x06,
      0xed, 0xf4, 0x31, 0x56, 0x57, 0x7a, 0x3f, 0x86, 0x72, 0xec]
     "sAave" "yvCurve-sAave" 18,
   yearnVaultDefinition_t.mk
     [0xe9, 0xdc, 0x63, 0x08, 0x3c, 0x46, 0x4d, 0x6e, 0xdc, 0xcf,
      0xf2, 0x34, 0x44, 0xff, 0x3c, 0xfc, 0x68, 0x86, 0xf6, 0xfb]
     "oBTC" "yvCurve-oBTC" 18,
   yearnVaultDefinition_t.mk
     [0x3c, 0x5d, 0xf3, 0x07, 0x7b, 0xcf, 0x80, 0x06, 0x40, 0xb5,
      0xda, 0xe8, 0xc9, 0x11, 0x06, 0x57, 0x5a, 0x48, 0x26, 0xe6]
     "pBTC" "yvCurve-pBTC" 18,
   yearnVaultDefinition_t.mk
     [0x5f, 0xa5, 0xb6, 0x2c, 0x8a, 0xf8, 0x77, 0xcb, 0x37, 0x03,
      0x1e, 0x0a, 0x3b, 0x2f, 0x34, 0xa7, 0x8e, 0x3c, 0x56, 0xa6]
     "LUSD" "yvCurve-LUSD" 18,
   yearnVaultDefinition_t.mk
     [0x8f, 0xa3, 0xa9, 0xec, 0xd9, 0xef, 0xb0, 0x7a, 0x8c, 0xe9,
      0x0a, 0x6e, 0xb0, 0x14, 0xcf, 0x3c, 0x0e, 0x3b, 0x32, 0xef]
     "BBTC" "yvCurve-BBTC" 18,
   yearnVaultDefinition_t.mk
     [0x23, 0xd3, 0xd0, 0xf1, 0xc6, 0x97, 0x24, 0x7d, 0x5e, 0x0a,
      0x9e, 0xfb, 0x37, 0xd8, 0xb0, 0xed, 0x0c, 0x46, 0x4f, 0x7f]
     "tBTC" "yvCurve-tBTC" 18,
   yearnVaultDefinition_t.mk
     [0x7d, 0xa9, 0x6a, 0x38, 0x91, 0xad, 0xd0, 0x58, 0xad, 0xa2,
      0xe8, 0x26, 0x30, 0x6d, 0x81, 0x2c, 0x63, 0x8d, 0x87, 0xa7]
     "USDT" "yvUSDT" 6,
   yearnVaultDefinition_t.mk
     [0xa6, 0x96, 0xa6, 0x3c, 0xc7, 0x8d, 0xff, 0xa1, 0xa6, 0x3e,
      0x9e, 0x50, 0x58, 0x7c, 0x19, 0x73, 0x87, 0xff, 0x6c, 0x7e]
     "WBTC" "yvWBTC" 8,
   yearnVaultDefinition_t.mk
     [0xb4, 0xad, 0xa6, 0x07, 0xb9, 0xd6, 0xb2, 0xc9, 0xee, 0x07,
      0xa2, 0x75, 0xe9, 0x61, 0x6b, 0x84, 0xac, 0x56, 0x01, 0x39]
     "FRAX" "yvCurve-FRAX" 18,
   yearnVaultDefinition_t.mk
     [0xfb, 0xeb, 0x78, 0xa7, 0x23, 0xb8, 0x08, 0x7f, 0xd2, 0xea,
      0x7e, 0xf1, 0xaf, 0xec, 0x93, 0xd3, 0x5e, 0x8b, 0xed, 0x42]
     "UNI" "yvUNI" 18,
   yearnVaultDefinition_t.mk
     [0x8e, 0xe5, 0x7c, 0x05, 0x74, 0x1a, 0xa9, 0xdb, 0x94, 0x7a,
      0x74, 0x4e, 0x71, 0x3c, 0x15, 0xd4, 0xd1, 0x9d, 0x88, 0x22]
     "yBUSD" "yvCurve-yBUSD" 18,
   yearnVaultDefinition_t.mk
     [0xd6, 0xea, 0x40, 0x59, 0x7b, 0xe0, 0x5c, 0x20, 0x18, 0x45,
      0xc0, 0xbf, 0xd2, 0xe9, 0x6a, 0x60, 0xba, 0xcd, 0xe2, 0x67]
     "COMP" "yvCurve-Compound" 18,
   yearnVaultDefinition_t.mk
     [0x2a, 0x38, 0xb9, 0xb0, 0x20, 0x1c, 0xa3, 0x9b, 0x17, 0xb4,
      0x60, 0xed, 0x2f, 0x11, 0xe4, 0x92, 0x95, 0x59, 0x07, 0x1e]
     "GUSD" "yvCurve-GUSD" 18,
   yearnVaultDefinition_t.mk
     [0x4b, 0x5b, 0xfd, 0x52, 0x12, 0x47, 0x84, 0x74, 0x5c, 0x10,
      0x71, 0xdc, 0xb2, 0x44, 0xc6, 0x68, 0x8d, 0x25, 0x33, 0xd3]
     "y" "yUSD" 18,
   yearnVaultDefinition_t.mk
     [0x84, 0xe1, 0x37, 0x85, 0xb5, 0xa2, 0x78, 0x79, 0x92, 0x1d,
      0x6f, 0x68, 0x5f, 0x04, 0x14, 0x21, 0xc7, 0xf4, 0x82, 0xda]
     "3pool" "yvCurve-3pool" 18,
   yearnVaultDefinition_t.mk
     [0xf8, 0x76, 0x88, 0x14, 0xb8, 0x82, 0x81, 0xde, 0x4f, 0x53,
      0x2a, 0x3b, 0xee, 0xfa, 0x5b, 0x85, 0xb6, 0x9b, 0x93, 0x24]
     "TUSD" "yvCurve-TUSD" 18,
   yearnVaultDefinition_t.mk
     [0x6e, 0xde, 0x7f, 0x19, 0xdf, 0x5d, 0xf6, 0xef, 0x23, 0xbd,
      0x5b, 0x9c, 0xed, 0xb6, 0x51, 0x58, 0x0b, 0xdf, 0x56, 0xca]
     "BUSD" "yvCurve-BUSD" 18,
   yearnVaultDefinition_t.mk
     [0x30, 0xfc, 0xf7, 0xc6, 0xcd, 0xfc, 0x46, 0xec, 0x23, 0x77,
      0x83, 0xd9, 0x4f, 0xc7, 0x85, 0x53, 0xe7, 0x9d, 0x4e, 0x9c]
     "DUSD" "yvCurve-DUSD" 18,
   yearnVaultDefinition_t.mk
     [0x1c, 0x6a, 0x97, 0x83, 0xf8, 0x12, 0xb3, 0xaf, 0x3a, 0xbb,
      0xf7, 0xde, 0x64, 0xc3, 0xcd, 0x7c, 0xc7, 0xd1, 0xaf, 0x44]
     "UST" "yvCurve-UST" 18,
   yearnVaultDefinition_t.mk
     [0x8c, 0xc9, 0x4c, 0xcd, 0x0f, 0x38, 0x41, 0xa4, 0x68, 0x18,
      0x4a, 0xca, 0x3c, 0xc4, 0x78, 0xd2, 0x14, 0x8e, 0x17, 0x57]
     "mUSD" "yvCurve-mUSD" 18,
   yearnVaultDefinition_t.mk
     [0xa5, 0xca, 0x62, 0xd9, 0x5d, 0x24, 0xa4, 0xa3, 0x50, 0x98,
      0x3d, 0x5b, 0x8a, 0xc4, 0xeb, 0x86, 0x38, 0x88, 0x73, 0x96]
     "sUSD" "yvsUSD" 18,
   yearnVaultDefinition_t.mk
     [0xf2, 0x9a, 0xe5, 0x08, 0x69, 0x8b, 0xde, 0xf1, 0x69, 0xb8,
      0x98, 0x34, 0xf7, 0x67, 0x04, 0xc3, 0xb2, 0x05, 0xae, 0xdf]
     "SNX" "yvSNX" 18,
   yearnVaultDefinition_t.mk
     [0x5a, 0x77, 0x0d, 0xbd, 0x3e, 0xe6, 0xba, 0xf2, 0x80, 0x2d,
      0x29, 0xa9, 0x01, 0xef, 0x11, 0x50, 0x1c, 0x44, 0x79, 0x7a]
     "sUSD" "yvCurve-sUSD" 18,
   yearnVaultDefinition_t.mk
     [0xf2, 0xdb, 0x9a, 0x7c, 0x0a, 0xcd, 0x42, 0x7a, 0x68, 0x0d,
      0x64, 0x0f, 0x02, 0xd9, 0x0f, 0x61, 0x86, 0xe7, 0x17, 0x25]
     "LINK" "yvCurve-LINK" 18,
   yearnVaultDefinition_t.mk
     [0x3b, 0x96, 0xd4, 0x91, 0xf0, 0x67, 0x91, 0x2d, 0x18, 0x56,
      0x3d, 0x56, 0x85, 0x8b, 0xa7, 0xd6, 0xec, 0x67, 0xa6, 0xfa]
     "USDN" "yvCurve-USDN" 18,
   yearnVaultDefinition_t.mk
     [0xc4, 0xda, 0xf3, 0xb5, 0xe2, 0xa9, 0xe9, 0x38, 0x61, 0xc3,
      0xfb, 0xdd, 0x25, 0xf1, 0xe9, 0x43, 0xb8, 0xd8, 0x74, 0x17]
     "USDP" "yvCurve-USDP" 18,
   yearnVaultDefinition_t.mk
     [0xa7, 0x4d, 0x4b, 0x67, 0xb3, 0x36, 0x8e, 0x83, 0x79, 0x7a,
      0x35, 0x38, 0x2a, 0xfb, 0x77, 0x6b, 0xaa, 0xe4, 0xf5, 0xc8]
     "alUSD" "yvCurve-alUSD" 18,
   yearnVaultDefinition_t.mk
     [0xbf, 0xed, 0xbc, 0xbe, 0x27, 0x17, 0x1c, 0x41, 0x8c, 0xda,
      0xbc, 0x24, 0x77, 0x04, 0x25, 0x54, 0xb1, 0x90, 0x48, 0x57]
     "rETH" "yvCurve-rETH" 18,
   yearnVaultDefinition_t.mk
     [0x13, 0x2d, 0x8d, 0x2c, 0x76, 0xdb, 0x38, 0x12, 0x40, 0x34,
      0x31, 0xfa, 0xcb, 0x00, 0xf3, 0x45, 0x3f, 0xc4, 0x21, 0x25]
     "ankrETH" "yvCurve-ankrETH" 18,
   yearnVaultDefinition_t.mk
     [0x39, 0xca, 0xf1, 0x3a, 0x10, 0x4f, 0xf5, 0x67, 0xf7, 0x1f,
      0xd2, 0xa4, 0xc6, 0x8c, 0x02, 0x6f, 0xdb, 0x6e, 0x74, 0x0b]
     "Aave" "yvCurve-Aave" 18,
   yearnVaultDefinition_t.mk
     [0x05, 0x4a, 0xf2, 0x2e, 0x15, 0x19, 0xb0, 0x20, 0x51, 0x6d,
      0x72, 0xd7, 0x49, 0x22, 0x1c, 0x24, 0x75, 0x63, 0x85, 0xc9]
     "HUSD" "yvCurve-HUSD" 18,
   yearnVaultDefinition_t.mk
     [0x25, 0x21, 0x2d, 0xf2, 0x90, 0x73, 0xff, 0xfa, 0x7a, 0x67,
      0x39, 0x9a, 0xce, 0xfc, 0x2d, 0xd7, 0x5a, 0x83, 0x1a, 0x1a]
     "EURS" "yvCurve-EURS" 18,
   yearnVaultDefinition_t.mk
     [0x67, 0x1a, 0x91, 0x2c, 0x10, 0xbb, 0xa0, 0xcf, 0xa7, 0x4c,
      0xfc, 0x2d, 0x6f, 0xba, 0x9b, 0xa1, 0xed, 0x95, 0x30, 0xb2]
     "LINK" "yvLINK" 18,
   yearnVaultDefinition_t.mk
     [0x87, 0x3f, 0xb5, 0x44, 0x27, 0x7f, 0xd7, 0xb9, 0x77, 0xb1,
      0x96, 0xa8, 0x26, 0x45, 0x9a, 0x69, 0xe2, 0x7e, 0xa4, 0xea]
     "RAI" "yvRAI" 18,
   yearnVaultDefinition_t.mk
     [0xa2, 0x58, 0xc4, 0x60, 0x6c, 0xa8, 0x20, 0x6d, 0x8a, 0xa7,
      0x00, 0xce, 0x21, 0x43, 0xd7, 0xdb, 0x85, 0x4d, 0x16, 0x8c]
     "WETH" "yvWETH" 18,
   yearnVaultDefinition_t.mk
     [0x3d, 0x98, 0x0e, 0x50, 0x50, 0x8c, 0xfd, 0x41, 0xa1, 0x38,
      0x37, 0xa6, 0x01, 0x49, 0x92, 0x7a, 0x11, 0xc0, 0x37, 0x31]
     "triCrypto" "yvCurve-triCrypto" 18,
   yearnVaultDefinition_t.mk
     [0x80, 0xbb, 0xee, 0x2f, 0xa4, 0x60, 0xda, 0x29, 0x1e, 0x79,
      0x6b, 0x90, 0x45, 0xe9, 0x3d, 0x19, 0xef, 0x94, 0x8c, 0x6a]
     "Pax" "yvCurve-Pax" 18,
   yearnVaultDefinition_t.mk
     [0x28, 0xa5, 0xb9, 0x5c, 0x10, 0x1d, 0xf3, 0xde, 0xd0, 0xc0,
      0xd9, 0x07, 0x4d, 0xb8, 0x0c, 0x43, 0x87, 0x74, 0xb6, 0xa9]
     "USDT" "yvCurve-USDT" 18,
   yearnVaultDefinition_t.mk
     [0x3d, 0x27, 0x70, 0x5c, 0x64, 0x21, 0x3a, 0x5d, 0xcd, 0x9d,
      0x26, 0x88, 0x0c, 0x1b, 0xcf, 0xa7, 0x2d, 0x5b, 0x6b, 0x0e]
     "USDK" "yvCurve-USDK" 18,
   yearnVaultDefinition_t.mk
     [0xc1, 0x16, 0xdf, 0x49, 0xc0, 0x2c, 0x5f, 0xd1, 0x47, 0xde,
      0x25, 0xba, 0xa1, 0x05, 0x32, 0x2e, 0xbf, 0x26, 0xbd, 0x97]
     "RSV" "yvCurve-RSV" 18,
   yearnVaultDefinition_t.mk
     [0xda, 0x81, 0x64, 0x59, 0xf1, 0xab, 0x56, 0x31, 0x23, 0x2f,
      0xe5, 0xe9, 0x7a, 0x05, 0xbb, 0xbb, 0x94, 0x97, 0x0c, 0x95]
     "DAI" "yvDAI" 18,
   yearnVaultDefinition_t.mk
     [0xe5, 0x37, 0xb5, 0xcc, 0x15, 0x8e, 0xb7, 0x10, 0x37, 0xd4,
      0x12, 0x5b, 0xdd, 0x75, 0x38, 0x42, 0x19, 0x81, 0xe6, 0xaa]
     "3Crypto" "yvCurve-3Crypto" 18,
   yearnVaultDefinition_t.mk
     [0xd9, 0x78, 0x8f, 0x39, 0x31, 0xed, 0xe4, 0xd5, 0x01, 0x81,
      0x84, 0xe1, 0x98, 0x69, 0x9d, 0xc6, 0xd6, 0x6c, 0x19, 0x15]
     "AAVE" "yvAAVE" 18,
   yearnVaultDefinition_t.mk
     [0x4a, 0x3f, 0xe7, 0x57, 0x62, 0x01, 0x7d, 0xb0, 0xed, 0x73,
      0xa7, 0x1c, 0x9a, 0x06, 0xdb, 0x77, 0x68, 0xdb, 0x5e, 0x66]
     "COMP" "yvCOMP" 18,
   yearnVaultDefinition_t.mk
     [0x6d, 0x76, 0x5c, 0xbe, 0x5b, 0xc9, 0x22, 0x69, 0x4a, 0xfe,
      0x11, 0x2c, 0x14, 0x0b, 0x88, 0x78, 0xb9, 0xfb, 0x03, 0x90]
     "SUSHI" "yvSUSHI" 18,
   yearnVaultDefinition_t.mk
     [0xfd, 0x08, 0x77, 0xd9, 0x09, 0x57, 0x89, 0xca, 0xf2, 0x4c,
      0x98, 0xf7, 0xcc, 0xe0, 0x92, 0xfa, 0x8e, 0x12, 0x07, 0x75]
     "TUSD" "yvTUSD" 18,
   yearnVaultDefinition_t.mk
     [0x0d, 0x4e, 0xa8, 0x53, 0x6f, 0x9a, 0x13, 0xe4, 0xfb, 0xa1,
      0x60, 0x42, 0xa4, 0x6c, 0x30, 0xf0, 0x92, 0xb0, 0x6a, 0xa5]
     "EURT" "yvCurve-EURT" 18,
   yearnVaultDefinition_t.mk
     [0x2d, 0xfb, 0x14, 0xe3, 0x2e, 0x2f, 0x81, 0x56, 0xec, 0x15,
      0xa2, 0xc2, 0x1c, 0x3a, 0x6c, 0x05, 0x3a, 0xf5, 0x2b, 0xe8]
     "MIM" "yvCurve-MIM" 18,
   yearnVaultDefinition_t.mk
     [0x45, 0x60, 0xb9, 0x9c, 0x90, 0x4a, 0xad, 0x03, 0x02, 0x7b,
      0x51, 0x78, 0xcc, 0xa8, 0x15, 0x84, 0x74, 0x4a, 0xc0, 0x1f]
     "cvxCRV" "yvCurve-cvxCRV" 18,
   yearnVaultDefinition_t.mk
     [0x67, 0xe0, 0x19, 0xbf, 0xbd, 0x5a, 0x67, 0x20, 0x77, 0x55,
      0xd0, 0x44, 0x67, 0xd6, 0xa7, 0x0c, 0x0b, 0x75, 0xbf, 0x60]
     "ibEUR" "yvCurve-ibEUR" 18,
   yearnVaultDefinition_t.mk
     [0x52, 0x8d, 0x50, 0xdc, 0x9a, 0x33, 0x3f, 0x01, 0x54, 0x41,
      0x77, 0xa9, 0x24, 0x89, 0x3f, 0xa1, 0xf5, 0xb9, 0xf7, 0x48]
     "ibKRW" "yvCurve-ibKRW" 18,
   yearnVaultDefinition_t.mk
     [0x59, 0x5a, 0x68, 0xa8, 0xc9, 0xd5, 0xc2, 0x30, 0x00, 0x18,
      0x48, 0xb6, 0x9b, 0x19, 0x47, 0xee, 0x2a, 0x60, 0x71, 0x64]
     "ibGBP" "yvCurve-ibGBP" 18,
   yearnVaultDefinition_t.mk
     [0x1b, 0x90, 0x53, 0x31, 0xf7, 0xde, 0x27, 0x48, 0xf4, 0xd6,
      0xa0, 0x67, 0x8e, 0x15, 0x21, 0xe2, 0x03, 0x47, 0x64, 0x3f]
     "ibAUD" "yvCurve-ibAUD" 18,
   yearnVaultDefinition_t.mk
     [0x49, 0x0b, 0xd0, 0x88, 0x6f, 0x22, 0x1a, 0x5f, 0x79, 0x71,
      0x3d, 0x3e, 0x84, 0x40, 0x43, 0x55, 0xa9, 0x29, 0x3c, 0x50]
     "ibCHF" "yvCurve-ibCHF" 18,
   yearnVaultDefinition_t.mk
     [0x59, 0x51, 0x88, 0x84, 0xee, 0xbf, 0xb0, 0x3e, 0x90, 0xa1,
      0x8a, 0xdb, 0xaa, 0xab, 0x77, 0x0d, 0x46, 0x66, 0x47, 0x1e]
     "ibJPY" "yvCurve-ibJPY" 18,
   yearnVaultDefinition_t.mk
     [0xdb, 0x25, 0xca, 0x70, 0x31, 0x81, 0xe7, 0x48, 0x4a, 0x15,
      0x5d, 0xd6, 0x12, 0xb0, 0x6f, 0x57, 0xe1, 0x2b, 0xe5, 0xf0]
     "YFI" "yvYFI" 18,
   yearnVaultDefinition_t.mk
     [0x6f, 0xaf, 0xca, 0x7f, 0x49, 0xb4, 0xfd, 0x9d, 0xc3, 0x81,
      0x17, 0x46, 0x9c, 0xd3, 0x1a, 0x1e, 0x5a, 0xec, 0x91, 0xf5]
     "USDM" "yvCurve-USDM" 18,
   yearnVaultDefinition_t.mk
     [0x71, 0x8a, 0xbe, 0x90, 0x77, 0x7f, 0x5b, 0x77, 0x8b, 0x52,
      0xd5, 0x53, 0xa5, 0xab, 0xaa, 0x14, 0x8d, 0xd0, 0xdc, 0x5d]
     "alETH" "yvCurve-alETH" 18,
   yearnVaultDefinition_t.mk
     [0x8b, 0x9c, 0x0c, 0x24, 0x30, 0x73, 0x44, 0xb6, 0xd7, 0x94,
      0x1a, 0xb6, 0x54, 0xb2, 0xae, 0xee, 0x25, 0x34, 0x74, 0x73]
     "EURN" "yvCurve-EURN" 18,
   yearnVaultDefinition_t.mk
     [0xd8, 0xc6, 0x20, 0x99, 0x1b, 0x8e, 0x62, 0x6c, 0x09, 0x9e,
      0xaa, 0xb2, 0x9b, 0x1e, 0x3e, 0xea, 0x27, 0x97, 0x63, 0xbb]
     "MIMUST" "yvCurve-MIMUST" 18,
   yearnVaultDefinition_t.mk
     [0xc5, 0xbd, 0xdf, 0x98, 0x43, 0x30, 0x83, 0x80, 0x37, 0x5a,
      0x61, 0x1c, 0x18, 0xb5, 0x0f, 0xb9, 0x34, 0x1f, 0x50, 0x2a]
     "CRV" "yveCRV" 18,
   yearnVaultDefinition_t.mk
     [0xda, 0x48, 0x1b, 0x27, 0x7d, 0xce, 0x30, 0x5b, 0x97, 0xf4,
      0x09, 0x1b, 0xd6, 0x65, 0x95, 0xd5, 0x7c, 0xf3, 0x16, 0x34]
     "Pickle SLP" "pSLPyvBOOST-ETH" 18,
   yearnVaultDefinition_t.mk
     [0xa3, 0x54, 0xf3, 0x58, 0x29, 0xae, 0x97, 0x5e, 0x85, 0x0e,
      0x23, 0xe9, 0x61, 0x5b, 0x11, 0xda, 0x1b, 0x3d, 0xc4, 0xde]
     "USDC" "yvUSDC" 6,
   yearnVaultDefinition_t.mk
     [0xf5, 0x9d, 0x66, 0xc1, 0xd5, 0x93, 0xfb, 0x10, 0xe2, 0xf8,
      0xc2, 0xa6, 0xfd, 0x2c, 0x95, 0x87, 0x92, 0x43, 0x4b, 0x9c]
     "OUSD3CRV-f" "yvCurve-OUSD" 18,
   yearnVaultDefinition_t.mk
     [0x5e, 0x69, 0xe8, 0xb5, 0x1b, 0x71, 0xc8, 0x59, 0x68, 0x17,
      0xfd, 0x44, 0x28, 0x49, 0xbd, 0x44, 0x21, 0x9b, 0xb0, 0x95]
     "ibBTC" "yvCurve-ibBTC" 18,
   yearnVaultDefinition_t.mk
     [0x16, 0x82, 0x50, 0x39, 0xdf, 0xe2, 0xa5, 0xb0, 0x1f, 0x3e,
      0x1e, 0x6a, 0x2b, 0xbf, 0x9a, 0x57, 0x6c, 0x6f, 0x95, 0xc4]
     "D3-f" "yvCurve-d3pool" 18,
   yearnVaultDefinition_t.mk
     [0xbc, 0xbb, 0x5b, 0x54, 0xfa, 0x51, 0xe7, 0xb7, 0xdc, 0x92,
      0x03, 0x40, 0x04, 0x3b, 0x20, 0x34, 0x47, 0x84, 0x2a, 0x6b]
     "crvEURTUSD" "yvCurve-EURTUSD" 18,
   yearnVaultDefinition_t.mk
     [0x80, 0x1a, 0xb0, 0x61, 0x54, 0xbf, 0x53, 0x9d, 0xea, 0x43,
      0x85, 0xa3, 0x9f, 0x5f, 0xa8, 0x53, 0x4f, 0xb5, 0x30, 0x73]
     "crvEURSUSDC" "yvCurve-EURSUSDC" 18,
   yearnVaultDefinition_t.mk
     [0x37, 0x8c, 0xb5, 0x2b, 0x00, 0xf9, 0xd0, 0x92, 0x1c, 0xb4,
      0x6d, 0xfc, 0x09, 0x9c, 0xff, 0x73, 0xb4, 0x24, 0x19, 0xdc]
     "LUSD" "yvLUSD" 18]

/-- The array `IRON_BANK` of `main.c`, in the order of its initialiser. -/
def IRON_BANK : List yearnVaultDefinition_t :=
  [yearnVaultDefinition_t.mk
     [0x41, 0xc8, 0x4c, 0x0e, 0x2E, 0xE0, 0xb7, 0x40, 0xCf, 0x0d,
      0x31, 0xF6, 0x3f, 0x3B, 0x6F, 0x62, 0x7D, 0xC6, 0xb3, 0x93]
     "WETH" "cyWETH" 18,
   yearnVaultDefinition_t.mk
     [0x8e, 0x59, 0x54, 0x70, 0xEd, 0x74, 0x9b, 0x85, 0xC6, 0xF7,
      0x66, 0x9d, 0xe8, 0x3E, 0xAe, 0x30, 0x4C, 0x2e, 0xc6, 0x8F]
     "DAI" "cyDAI" 18,
   yearnVaultDefinition_t.mk
     [0x75, 0x89, 0xC9, 0xE1, 0x7B, 0xCF, 0xcE, 0x1C, 0xca, 0xa1,
      0xf9, 0x21, 0x19, 0x6F, 0xDa, 0x17, 0x7F, 0x02, 0x07, 0xFc]
     "Y3CRV" "cyY3CRV" 18,
   yearnVaultDefinition_t.mk
     [0xE7, 0xBF, 0xf2, 0xDa, 0x8A, 0x2f, 0x61, 0x9c, 0x25, 0x86,
      0xFB, 0x83, 0x93, 0x8F, 0xa5, 0x6C, 0xE8, 0x03, 0xaA, 0x16]
     "LINK" "cyLINK" 18,
   yearnVaultDefinition_t.mk
     [0xFa, 0x34, 0x72, 0xf7, 0x31, 0x94, 0x77, 0xc9, 0xbF, 0xEc,
      0xdD, 0x66, 0xE4, 0xB9, 0x48, 0x56, 0x9E, 0x76, 0x21, 0xb9]
     "YFI" "cyYFI" 18,
   yearnVaultDefinition_t.mk
     [0x12, 0xA9, 0xcC, 0x33, 0xA9, 0x80, 0xDA, 0xa7, 0x4E, 0x00,
      0xcc, 0x2d, 0x1A, 0x0E, 0x74, 0xC5, 0x7A, 0x93, 0xd1, 0x2C]
     "SNX" "cySNX" 18,
   yearnVaultDefinition_t.mk
     [0x8F, 0xc8, 0xBF, 0xD8, 0x0d, 0x6A, 0x9F, 0x17, 0xFb, 0x98,
      0xA3, 0x73, 0x02, 0x3d, 0x72, 0x53, 0x17, 0x92, 0xB4, 0x31]
     "WBTC" "cyWBTC" 8,
   yearnVaultDefinition_t.mk
     [0x48, 0x75, 0x9F, 0x22, 0x0E, 0xD9, 0x83, 0xdB, 0x51, 0xfA,
      0x7A, 0x8C, 0x0D, 0x2A, 0xAb, 0x8f, 0x3c, 0xe4, 0x16, 0x6a]
     "USDT" "cyUSDT" 6,
   yearnVaultDefinition_t.mk
     [0x76, 0xEb, 0x2F, 0xE2, 0x8b, 0x36, 0xB3, 0xee, 0x97, 0xF3,
      0xAd, 0xae, 0x0C, 0x69, 0x60, 0x6e, 0xeD, 0xB2, 0xA3, 0x7c]
     "USDC" "cyUSDC" 6,
   yearnVaultDefinition_t.mk
     [0xBE, 0x86, 0xe8, 0x91, 0x8D, 0xFc, 0x7d, 0x3C, 0xb1, 0x0d,
      0x29, 0x5f, 0xc2, 0x20, 0xF9, 0x41, 0xA1, 0x47, 0x0C, 0x5c]
     "MUSD" "cyMUSD" 18,
   yearnVaultDefinition_t.mk
     [0x29, 0x7d, 0x4D, 0xa7, 0x27, 0xfb, 0xC6, 0x29, 0x25, 0x28,
      0x45, 0xE9, 0x65, 0x38, 0xFC, 0x46, 0x16, 0x7e, 0x45, 0x3A]
     "DUSD" "cyDUSD" 18,
   yearnVaultDefinition_t.mk
     [0xA8, 0xca, 0xeA, 0x56, 0x48, 0x11, 0xaf, 0x0e, 0x92, 0xb1,
      0xE0, 0x44, 0xf3, 0xeD, 0xd1, 0x8F, 0xa9, 0xa7, 0x3E, 0x4F]
     "EURS" "cyEURS" 2,
   yearnVaultDefinition_t.mk
     [0xCA, 0x55, 0xF9, 0xC4, 0xE7, 0x7f, 0x7B, 0x85, 0x24, 0x17,
      0x85, 0x83, 0xb0, 0xf7, 0xc7, 0x98, 0xDe, 0x17, 0xfD, 0x54]
     "SEUR" "cySEUR" 18,
   yearnVaultDefinition_t.mk
     [0x77, 0x36, 0xFf, 0xb0, 0x71, 0x04, 0xc0, 0xC4, 0x00, 0xBb,
      0x0C, 0xC9, 0xA7, 0xC2, 0x28, 0x45, 0x2A, 0x73, 0x29, 0x92]
     "DPI" "cyDPI" 18,
   yearnVaultDefinition_t.mk
     [0x09, 0xbD, 0xCC, 0xe2, 0x59, 0x3f, 0x0B, 0xEF, 0x09, 0x91,
      0x18, 0x8c, 0x25, 0xFb, 0x74, 0x48, 0x97, 0xB6, 0x57, 0x2d]
     "BUSD" "cyBUSD" 18,
   yearnVaultDefinition_t.mk
     [0x9D, 0x02, 0x9C, 0xD7, 0xCE, 0xdc, 0xB1, 0x94, 0xE2, 0xC3,
      0x61, 0x94, 0x8f, 0x27, 0x9f, 0x17, 0x88, 0x13, 0x5B, 0xB2]
     "CREAM" "cyCREAM" 18,
   yearnVaultDefinition_t.mk
     [0x4F, 0x12, 0xc9, 0xDA, 0xBB, 0x53, 0x19, 0xA2, 0x52, 0x46,
      0x3E, 0x60, 0x28, 0xCA, 0x83, 0x3f, 0x11, 0x64, 0xd0, 0x45]
     "CDAI" "cyCDAI" 18,
   yearnVaultDefinition_t.mk
     [0xBB, 0x4B, 0x06, 0x7c, 0xc6, 0x12, 0x49, 0x49, 0x14, 0xA9,
      0x02, 0x21, 0x7C, 0xB6, 0x07, 0x8a, 0xB4, 0x72, 0x8E, 0x36]
     "CUSDT" "cyCUSDT" 8,
   yearnVaultDefinition_t.mk
     [0x95, 0x00, 0x27, 0x63, 0x2F, 0xbD, 0x6a, 0xDA, 0xdF, 0xe8,
      0x26, 0x44, 0xBf, 0xB6, 0x46, 0x47, 0x64, 0x2B, 0x6C, 0x09]
     "CUSDC" "cyCUSDC" 8,
   yearnVaultDefinition_t.mk
     [0xa7, 0xc4, 0x05, 0x4A, 0xFD, 0x3D, 0xbB, 0xbF, 0x5b, 0xFe,
      0x80, 0xf4, 0x18, 0x62, 0xb8, 0x9e, 0xa0, 0x5c, 0x98, 0x06]
     "SUSD" "cySUSD" 18,
   yearnVaultDefinition_t.mk
     [0x1b, 0x3E, 0x95, 0xE8, 0xEC, 0xF7, 0xA7, 0xca, 0xB6, 0xc4,
      0xDe, 0x1b, 0x34, 0x4F, 0x94, 0x86, 0x5a, 0xBD, 0x12, 0xd5]
     "CHF" "cyCHF" 18,
   yearnVaultDefinition_t.mk
     [0xFE, 0xEB, 0x92, 0x38, 0x6A, 0x05, 0x5E, 0x2e, 0xF7, 0xC2,
      0xB5, 0x98, 0xc8, 0x72, 0xa4, 0x04, 0x7a, 0x7d, 0xB5, 0x9F]
     "UNI" "cyUNI" 18,
   yearnVaultDefinition_t.mk
     [0x22, 0x6F, 0x37, 0x38, 0x23, 0x89, 0x32, 0xBA, 0x0d, 0xB2,
      0x31, 0x9a, 0x81, 0x17, 0xD9, 0x55, 0x54, 0x46, 0x10, 0x2f]
     "SUSHI" "cySUSHI" 18,
   yearnVaultDefinition_t.mk
     [0x30, 0x19, 0x0a, 0x3B, 0x52, 0xb5, 0xAB, 0x1d, 0xaF, 0x70,
      0xD4, 0x6D, 0x72, 0x53, 0x6F, 0x51, 0x71, 0xf2, 0x23, 0x40]
     "AAVE" "cyAAVE" 18,
   yearnVaultDefinition_t.mk
     [0x00, 0xe5, 0xc0, 0x77, 0x4A, 0x5F, 0x06, 0x5c, 0x28, 0x50,
      0x68, 0x17, 0x0b, 0x20, 0x39, 0x39, 0x25, 0xC8, 0x4B, 0xF3]
     "EUR" "cyEUR" 18,
   yearnVaultDefinition_t.mk
     [0xB8, 0xc5, 0xaf, 0x54, 0xbb, 0xDC, 0xc6, 0x14, 0x53, 0x14,
      0x4C, 0xF4, 0x72, 0xA9, 0x27, 0x6a, 0xE3, 0x61, 0x09, 0xF9]
     "CRV" "cyCRV" 18,
   yearnVaultDefinition_t.mk
     [0x3c, 0x9f, 0x53, 0x85, 0xc2, 0x88, 0xcE, 0x43, 0x8E, 0xd5,
      0x56, 0x20, 0x93, 0x8A, 0x4B, 0x96, 0x7c, 0x08, 0x01, 0x01]
     "KRW" "cyKRW" 18,
   yearnVaultDefinition_t.mk
     [0x21, 0x5F, 0x34, 0xaf, 0x65, 0x57, 0xA6, 0x59, 0x8D, 0xbd,
      0xA9, 0xaa, 0x11, 0xcc, 0x55, 0x6F, 0x5A, 0xE2, 0x64, 0xB1]
     "JPY" "cyJPY" 18,
   yearnVaultDefinition_t.mk
     [0x86, 0xBB, 0xD9, 0xac, 0x8B, 0x9B, 0x44, 0xC9, 0x5F, 0xFc,
      0x6B, 0xAA, 0xe5, 0x8E, 0x25, 0x03, 0x3B, 0x75, 0x48, 0xAA]
     "AUD" "cyAUD" 18,
   yearnVaultDefinition_t.mk
     [0xec, 0xaB, 0x2C, 0x76, 0xf1, 0xA8, 0x35, 0x9A, 0x06, 0xfA,
      0xB5, 0xfA, 0x0C, 0xEe, 0xa5, 0x12, 0x80, 0xA9, 0x7e, 0xCF]
     "GBP" "cyGBP" 18,
   yearnVaultDefinition_t.mk
     [0x9e, 0x8E, 0x20, 0x70, 0x83, 0xff, 0xd5, 0xBD, 0xc3, 0xD9,
      0x9A, 0x1F, 0x32, 0xD1, 0xe6, 0x25, 0x08, 0x69, 0xC1, 0xA9]
     "MIM" "cyMIM" 18,
   yearnVaultDefinition_t.mk
     [0x67, 0x24, 0x73, 0x90, 0x85, 0x87, 0xb1, 0x0e, 0x65, 0xDA,
      0xB1, 0x77, 0xDb, 0xae, 0xad, 0xcb, 0xb3, 0x0B, 0xF4, 0x0B]
     "ZAR" "cyZAR" 18]

/-- Modelled from the spec: the vault registry lookup, whose code is not among the sources.
It scans the table from its first entry and returns the first entry whose address equals the
given one byte for byte over `ADDRESS_LENGTH` bytes, or nothing when no entry matches. -/
def vault_registry_lookup :
    List yearnVaultDefinition_t → List Nat → Option yearnVaultDefinition_t
  | [], _ => none
  | v :: table, address =>
    if memcmp v.address address ADDRESS_LENGTH = 0 then some v
    else vault_registry_lookup table address

/-- The byte sequence `a` with bit `k` of its byte `i` inverted. -/
def flip_bit (a : List Nat) (i k : Nat) : List Nat :=
  a.set i (a.getD i 0 ^^^ 2 ^ k)

/-- The sequence `b` differs from `a` in exactly one bit: it is `a` with one of the eight bits
of one of its bytes inverted. -/
def differ_in_one_bit (a b : List Nat) : Prop :=
  ∃ i, i < a.length ∧ ∃ k, k < 8 ∧ b = flip_bit a i k

instance differ_in_one_bit_decidable (a b : List Nat) : Decidable (differ_in_one_bit a b) :=
  inferInstanceAs (Decidable (∃ i, i < a.length ∧ ∃ k, k < 8 ∧ b = flip_bit a i k))

/-! ## `dispatch_plugin_calls` -/

/-- Modelled from the spec: the six message codes of the plugin SDK that label the cases of
the switch of `dispatch_plugin_calls`.  Their header is not among the sources and the spec
gives no values, so they are parameters; as case labels of one switch they are distinct. -/
structure plugin_messages where
  ETH_PLUGIN_INIT_CONTRACT : Int
  ETH_PLUGIN_PROVIDE_PARAMETER : Int
  ETH_PLUGIN_FINALIZE : Int
  ETH_PLUGIN_PROVIDE_INFO : Int
  ETH_PLUGIN_QUERY_CONTRACT_ID : Int
  ETH_PLUGIN_QUERY_CONTRACT_UI : Int
deriving DecidableEq, Repr

/-- The six case labels of the switch, in the order of the source. -/
def plugin_messages.codes (m : plugin_messages) : List Int :=
  [m.ETH_PLUGIN_INIT_CONTRACT, m.ETH_PLUGIN_PROVIDE_PARAMETER, m.ETH_PLUGIN_FINALIZE,
   m.ETH_PLUGIN_PROVIDE_INFO, m.ETH_PLUGIN_QUERY_CONTRACT_ID, m.ETH_PLUGIN_QUERY_CONTRACT_UI]

/-- The memory behind the pointer `parameters`: the part `handle_init_contract` reads and
writes when it casts the pointer to `ethPluginInitContract_t *` (the message together with
the context buffer), and everything else the other handlers can reach. -/
structure parameters_t (β : Type) where
  init_contract : ethPluginInitContract_t
  other : β

/-- Modelled from the spec: the five handlers that `dispatch_plugin_calls` calls besides
`handle_init_contract`.  Their code is not among the sources; each is an arbitrary function
of the memory behind `parameters`. -/
structure plugin_handlers (β : Type) where
  handle_provide_parameter : parameters_t β → parameters_t β
  handle_finalize : parameters_t β → parameters_t β
  handle_provide_token : parameters_t β → parameters_t β
  handle_query_contract_id : parameters_t β → parameters_t β
  handle_query_contract_ui : parameters_t β → parameters_t β

/-- The function `dispatch_plugin_calls` of `main.c`: the memory behind `parameters` after the
call.  The switch is a chain of tests in the order of its cases; the default case prints
the message code and changes nothing. -/
def dispatch_plugin_calls {β : Type} (hdr : plugin_header) (m : plugin_messages)
    (h : plugin_handlers β) (message : Int) (parameters : parameters_t β) : parameters_t β :=
  if message = m.ETH_PLUGIN_INIT_CONTRACT then
    { parameters with init_contract := handle_init_contract hdr parameters.init_contract }
  else if message = m.ETH_PLUGIN_PROVIDE_PARAMETER then
    h.handle_provide_parameter parameters
  else if message = m.ETH_PLUGIN_FINALIZE then
    h.handle_finalize parameters
  else if message = m.ETH_PLUGIN_PROVIDE_INFO then
    h.handle_provide_token parameters
  else if message = m.ETH_PLUGIN_QUERY_CONTRACT_ID then
    h.handle_query_contract_id parameters
  else if message = m.ETH_PLUGIN_QUERY_CONTRACT_UI then
    h.handle_query_contract_ui parameters
  else
    parameters

/-! ## Sample inputs -/

/-- A header instance: interface version 2, a context of 6 bytes, slot codes 1 and 2. -/
def sample_header : plugin_header :=
  { ETH_PLUGIN_INTERFACE_VERSION_LATEST := 2, sizeof_context_t := 6, AMOUNT := 1, ZAP_TOKEN := 2 }

/-- A context left over from an earlier transaction. -/
def stale_context : context_t :=
  { selectorIndex := 7, next_param := 3, other_fields := [0xde, 0xad, 0xbe, 0xef] }

/-- Another left-over context of the same size. -/
def stale_context_2 : context_t :=
  { selectorIndex := 12, next_param := 1, other_fields := [1, 2, 3, 4] }

/-- An initialisation message for `sample_header` that passes both checks. -/
def sample_msg (selector : List Nat) : ethPluginInitContract_t :=
  { interfaceVersion := 2, result := ETH_PLUGIN_RESULT_ERROR, pluginContext := stale_context,
    pluginContextLength := 6, selector := selector }

/-- The message `sample_msg` from a host that speaks interface version 1. -/
def old_version_msg (selector : List Nat) : ethPluginInitContract_t :=
  { sample_msg selector with interfaceVersion := 1 }

/-- The message `sample_msg` with a context buffer of 5 bytes, one short. -/
def undersized_msg (selector : List Nat) : ethPluginInitContract_t :=
  { sample_msg selector with pluginContextLength := 5 }

/-- Message codes for the samples: 0x101 to 0x106 in the order of the switch. -/
def sample_messages : plugin_messages :=
  { ETH_PLUGIN_INIT_CONTRACT := 0x101, ETH_PLUGIN_PROVIDE_PARAMETER := 0x102,
    ETH_PLUGIN_FINALIZE := 0x103, ETH_PLUGIN_PROVIDE_INFO := 0x104,
    ETH_PLUGIN_QUERY_CONTRACT_ID := 0x105, ETH_PLUGIN_QUERY_CONTRACT_UI := 0x106 }

/-- Handlers for the samples: each appends its own name to a log of the calls made. -/
def logging_handlers : plugin_handlers (List String) :=
  { handle_provide_parameter := fun p => { p with other := p.other ++ ["handle_provide_parameter"] }
    handle_finalize := fun p => { p with other := p.other ++ ["handle_finalize"] }
    handle_provide_token := fun p => { p with other := p.other ++ ["handle_provide_token"] }
    handle_query_contract_id := fun p => { p with other := p.other ++ ["handle_query_contract_id"] }
    handle_query_contract_ui := fun p => { p with other := p.other ++ ["handle_query_contract_ui"] } }

/-- The memory for the samples: the sample message for `DEPOSIT` and an empty call log. -/
def sample_parameters : parameters_t (List String) :=
  { init_contract := sample_msg DEPOSIT_SELECTOR, other := [] }

/-- The first entry of `YEARN_VAULTS`. -/
def first_dai_vault : yearnVaultDefinition_t :=
  yearnVaultDefinition_t.mk
    [0xbf, 0xa4, 0xd8, 0xaa, 0x6d, 0x8a, 0x37, 0x9a, 0xbf, 0xe7,
     0x79, 0x33, 0x99, 0xd3, 0xdd, 0xac, 0xc5, 0xbb, 0xec, 0xbb]
    "DAI" "yvDAI" 18

/-- A context whose other members hold 24 stale bytes, enough for an address. -/
def stale_context_with_address : context_t :=
  { selectorIndex := 4, next_param := 1,
    other_fields := [0xbf, 0xa4, 0xd8, 0xaa, 0x6d, 0x8a, 0x37, 0x9a, 0xbf, 0xe7,
                     0x79, 0x33, 0x99, 0xd3, 0xdd, 0xac, 0xc5, 0xbb, 0xec, 0xbb,
                     0x01, 0x02, 0x03, 0x04] }

/-! ## Auxiliary facts -/

theorem memcmp_eq_zero_iff (n : Nat) :
    ∀ s1 s2 : List Nat, memcmp s1 s2 n = 0 ↔ s1.take n = s2.take n := by
  induction n with
  | zero => intro s1 s2; simp [memcmp]
  | succ n ih =>
    intro s1 s2
    cases s1 with
    | nil => cases s2 <;> simp [memcmp]
    | cons a s1 =>
      cases s2 with
      | nil => simp [memcmp]
      | cons b s2 =>
        simp only [memcmp, List.take_succ_cons, List.cons.injEq]
        by_cases hab : a < b
        · simp [hab]; omega
        · by_cases hba : b < a
          · simp [hab, hba]; omega
          · have : a = b := by omega
            simp [hab, this, ih]

/-- Comparing a table entry with a selector of `SELECTOR_SIZE` bytes is comparing the two. -/
theorem memcmp_table_eq_zero_iff (t selector : List Nat) (ht : t.length = SELECTOR_SIZE)
    (hs : selector.length = SELECTOR_SIZE) :
    memcmp (PIC t) selector SELECTOR_SIZE = 0 ↔ t = selector := by
  rw [memcmp_eq_zero_iff, PIC, List.take_of_length_le (le_of_eq ht),
    List.take_of_length_le (le_of_eq hs)]

theorem YEARN_SELECTORS_length : YEARN_SELECTORS.length = NUM_SELECTORS := by decide

theorem YEARN_SELECTORS_entry_length :
    ∀ i, i < NUM_SELECTORS → (YEARN_SELECTORS.getD i []).length = SELECTOR_SIZE := by
  decide

theorem YEARN_SELECTORS_nodup : YEARN_SELECTORS.Nodup := by decide

/-- Each enumerator indexes the selector constant of the same name. -/
theorem YEARN_SELECTORS_by_operation :
    [DEPOSIT_ALL, DEPOSIT, DEPOSIT_TO, WITHDRAW_ALL, WITHDRAW, WITHDRAW_TO,
      WITHDRAW_TO_SLIPPAGE, ZAP_IN, ZAP_IN_PICKLE, IB_MINT, IB_REDEEM, IB_REDEEM_UNDERLYING,
      IB_BORROW, IB_REPAY_BORROW, CLAIM, EXIT, GET_REWARDS].map
        (fun op => YEARN_SELECTORS.getD op [])
      = [DEPOSIT_ALL_SELECTOR, DEPOSIT_SELECTOR, DEPOSIT_TO_SELECTOR, WITHDRAW_ALL_SELECTOR,
          WITHDRAW_SELECTOR, WITHDRAW_TO_SELECTOR, WITHDRAW_TO_SLIPPAGE_SELECTOR,
          ZAP_IN_SELECTOR, ZAP_IN_PICKLE_SELECTOR, IB_MINT_SELECTOR, IB_REDEEM_SELECTOR,
          IB_REDEEM_UNDERLYING_SELECTOR, IB_BORROW_SELECTOR, IB_REPAY_BORROW_SELECTOR,
          CLAIM_SELECTOR, EXIT_SELECTOR, GET_REWARDS_SELECTOR] := by
  decide

theorem YEARN_SELECTORS_injective :
    ∀ i, i < NUM_SELECTORS → ∀ j, j < NUM_SELECTORS →
      YEARN_SELECTORS.getD i [] = YEARN_SELECTORS.getD j [] → i = j := by
  decide

/-- The loop leaves with `i = NUM_SELECTORS` and an untouched context when no entry from `i`
on compares equal. -/
theorem selector_loop_miss (selector : List Nat) (context : context_t) :
    ∀ fuel i, i ≤ NUM_SELECTORS → NUM_SELECTORS - i < fuel →
      (∀ j, i ≤ j → j < NUM_SELECTORS →
        memcmp (PIC (YEARN_SELECTORS.getD j [])) selector SELECTOR_SIZE ≠ 0) →
      selector_loop selector context fuel i = (NUM_SELECTORS, context) := by
  intro fuel
  induction fuel with
  | zero => intro i _ h; omega
  | succ fuel ih =>
    intro i hi hf hmiss
    unfold selector_loop
    by_cases hlt : i < NUM_SELECTORS
    · have hne := hmiss i le_rfl hlt
      have hmod : (i + 1) % 256 = i + 1 := by
        apply Nat.mod_eq_of_lt
        simp only [NUM_SELECTORS] at hlt
        omega
      rw [if_pos hlt, if_neg hne, hmod]
      apply ih (i + 1) hlt (by omega)
      intro j hj hj17
      exact hmiss j (by omega) hj17
    · rw [if_neg hlt]
      have : i = NUM_SELECTORS := by omega
      rw [this]

/-- The loop breaks at the first entry that compares equal, with `selectorIndex` set to its
index and nothing else written. -/
theorem selector_loop_hit (selector : List Nat) (context : context_t) (k : Nat)
    (hk : k < NUM_SELECTORS)
    (hm : memcmp (PIC (YEARN_SELECTORS.getD k [])) selector SELECTOR_SIZE = 0) :
    ∀ fuel i, i ≤ k → k - i < fuel →
      (∀ j, i ≤ j → j < k →
        memcmp (PIC (YEARN_SELECTORS.getD j [])) selector SELECTOR_SIZE ≠ 0) →
      selector_loop selector context fuel i = (k, { context with selectorIndex := k }) := by
  intro fuel
  induction fuel with
  | zero => intro i _ h; omega
  | succ fuel ih =>
    intro i hi hf hfirst
    unfold selector_loop
    have hlt : i < NUM_SELECTORS := by omega
    rw [if_pos hlt]
    by_cases hik : i = k
    · subst hik
      rw [if_pos hm]
    · have hne := hfirst i le_rfl (by omega)
      have hmod : (i + 1) % 256 = i + 1 := by
        apply Nat.mod_eq_of_lt
        simp only [NUM_SELECTORS] at hlt
        omega
      rw [if_neg hne, hmod]
      apply ih (i + 1) (by omega) (by omega)
      intro j hj hjk
      exact hfirst j (by omega) hjk

/-- No table entry compares equal to a selector of `SELECTOR_SIZE` bytes that is not in the
table. -/
theorem memcmp_ne_zero_of_not_mem (selector : List Nat)
    (hlen : selector.length = SELECTOR_SIZE) (hnot : selector ∉ YEARN_SELECTORS) :
    ∀ j, 0 ≤ j → j < NUM_SELECTORS →
      memcmp (PIC (YEARN_SELECTORS.getD j [])) selector SELECTOR_SIZE ≠ 0 := by
  intro j _ hj h0
  rw [memcmp_table_eq_zero_iff _ _ (YEARN_SELECTORS_entry_length j hj) hlen] at h0
  apply hnot
  have hj2 : j < YEARN_SELECTORS.length := by rw [YEARN_SELECTORS_length]; exact hj
  rw [← h0, List.getD_eq_getElem _ _ hj2]
  exact List.getElem_mem hj2

/-- The entry at index `k` compares equal to itself and no earlier entry does. -/
theorem memcmp_table_entry (k : Nat) (hk : k < NUM_SELECTORS) :
    memcmp (PIC (YEARN_SELECTORS.getD k [])) (YEARN_SELECTORS.getD k []) SELECTOR_SIZE = 0 ∧
    ∀ j, 0 ≤ j → j < k →
      memcmp (PIC (YEARN_SELECTORS.getD j [])) (YEARN_SELECTORS.getD k []) SELECTOR_SIZE ≠ 0 := by
  have hlen := YEARN_SELECTORS_entry_length k hk
  refine ⟨(memcmp_table_eq_zero_iff _ _ hlen hlen).2 rfl, ?_⟩
  intro j _ hjk h0
  have hj : j < NUM_SELECTORS := lt_trans hjk hk
  rw [memcmp_table_eq_zero_iff _ _ (YEARN_SELECTORS_entry_length j hj) hlen] at h0
  have := YEARN_SELECTORS_injective j hj k hk h0
  omega

/-- The message after a call that passes both checks with a selector outside the table. -/
theorem handle_init_contract_of_not_mem (hdr : plugin_header) (msg : ethPluginInitContract_t)
    (hv : msg.interfaceVersion = hdr.ETH_PLUGIN_INTERFACE_VERSION_LATEST)
    (hc : hdr.sizeof_context_t ≤ msg.pluginContextLength)
    (hlen : msg.selector.length = SELECTOR_SIZE) (hnot : msg.selector ∉ YEARN_SELECTORS) :
    handle_init_contract hdr msg =
      { msg with pluginContext := memset_zero msg.pluginContext,
                 result := ETH_PLUGIN_RESULT_OK } := by
  have hloop := selector_loop_miss msg.selector (memset_zero msg.pluginContext)
    (NUM_SELECTORS + 1) 0 (Nat.zero_le _) (by omega)
    (memcmp_ne_zero_of_not_mem msg.selector hlen hnot)
  unfold handle_init_contract
  rw [if_neg (not_not.2 hv), if_neg (not_lt.2 hc)]
  simp only [hloop]
  simp [memset_zero, DEPOSIT_ALL]

/-- The message after a call that passes both checks with the selector of table index `k`. -/
theorem handle_init_contract_of_entry (hdr : plugin_header) (msg : ethPluginInitContract_t)
    (k : Nat)
    (hv : msg.interfaceVersion = hdr.ETH_PLUGIN_INTERFACE_VERSION_LATEST)
    (hc : hdr.sizeof_context_t ≤ msg.pluginContextLength)
    (hk : k < NUM_SELECTORS) (hs : msg.selector = YEARN_SELECTORS.getD k []) :
    handle_init_contract hdr msg =
      { msg with
        pluginContext :=
          { selectorIndex := k
            next_param :=
              if k ∈ [DEPOSIT_ALL, WITHDRAW_ALL, CLAIM, EXIT, GET_REWARDS] then 0
              else if k ∈ [ZAP_IN, ZAP_IN_PICKLE] then hdr.ZAP_TOKEN
              else hdr.AMOUNT
            other_fields := msg.pluginContext.other_fields.map (fun _ => 0) }
        result := ETH_PLUGIN_RESULT_OK } := by
  have hent := memcmp_table_entry k hk
  have hloop := selector_loop_hit (YEARN_SELECTORS.getD k []) (memset_zero msg.pluginContext)
    k hk hent.1 (NUM_SELECTORS + 1) 0 (Nat.zero_le _) (by omega) hent.2
  rw [← hs] at hloop
  unfold handle_init_contract
  rw [if_neg (not_not.2 hv), if_neg (not_lt.2 hc)]
  simp only [hloop]
  clear hloop hent hs
  simp only [NUM_SELECTORS] at hk
  interval_cases k <;>
    simp [memset_zero, NUM_SELECTORS, DEPOSIT_ALL, DEPOSIT, DEPOSIT_TO, WITHDRAW_ALL, WITHDRAW, WITHDRAW_TO,
      WITHDRAW_TO_SLIPPAGE, ZAP_IN, ZAP_IN_PICKLE, IB_MINT, IB_REDEEM, IB_REDEEM_UNDERLYING,
      IB_BORROW, IB_REPAY_BORROW, CLAIM, EXIT, GET_REWARDS]

/-- The loop writes no member of the context other than `selectorIndex`. -/
theorem selector_loop_frame (selector : List Nat) (context : context_t) :
    ∀ fuel i,
      (selector_loop selector context fuel i).2.next_param = context.next_param ∧
      (selector_loop selector context fuel i).2.other_fields = context.other_fields := by
  intro fuel
  induction fuel with
  | zero => intro i; simp [selector_loop]
  | succ fuel ih =>
    intro i
    unfold selector_loop
    split_ifs
    · simp
    · exact ih _
    · simp

/-- Zeroing forgets the prior content: two contexts of the same size zero to the same one. -/
theorem memset_zero_eq (c1 c2 : context_t)
    (hsize : c1.other_fields.length = c2.other_fields.length) :
    memset_zero c1 = memset_zero c2 := by
  simp [memset_zero, hsize]

/-- Once both checks pass, the handler never finishes with UNAVAILABLE, whatever the selector:
the switch either ends in OK or, on its default branch, in ERROR. -/
theorem handle_init_contract_result_ne_unavailable_of_checks (hdr : plugin_header)
    (msg : ethPluginInitContract_t)
    (hv : msg.interfaceVersion = hdr.ETH_PLUGIN_INTERFACE_VERSION_LATEST)
    (hc : hdr.sizeof_context_t ≤ msg.pluginContextLength) :
    (handle_init_contract hdr msg).result ≠ ETH_PLUGIN_RESULT_UNAVAILABLE := by
  unfold handle_init_contract
  rw [if_neg (not_not.2 hv), if_neg (not_lt.2 hc)]
  simp only
  split_ifs <;> simp

/-! ## Properties of the initialisation -/

/-- C1 (what the code does): for every 4-byte selector that is not in `YEARN_SELECTORS`, a call
that passes the version and capacity checks finishes with result OK, not UNAVAILABLE, and
with `selectorIndex = DEPOSIT_ALL`: the UNAVAILABLE stored after the loop is overwritten at
the end of the function, the switch having run on the zeroed `selectorIndex`. -/
theorem unregistered_selector_reported_ok (hdr : plugin_header) (msg : ethPluginInitContract_t)
    (hv : msg.interfaceVersion = hdr.ETH_PLUGIN_INTERFACE_VERSION_LATEST)
    (hc : hdr.sizeof_context_t ≤ msg.pluginContextLength)
    (hlen : msg.selector.length = SELECTOR_SIZE) (hnot : msg.selector ∉ YEARN_SELECTORS) :
    (handle_init_contract hdr msg).result = ETH_PLUGIN_RESULT_OK ∧
    (handle_init_contract hdr msg).result ≠ ETH_PLUGIN_RESULT_UNAVAILABLE ∧
    (handle_init_contract hdr msg).pluginContext.selectorIndex = DEPOSIT_ALL := by
  rw [handle_init_contract_of_not_mem hdr msg hv hc hlen hnot]
  simp [memset_zero, DEPOSIT_ALL]

/-- C1 at the all-zero selector, which is in no table entry. -/
theorem unregistered_selector_reported_ok_witness :
    [0, 0, 0, 0] ∉ YEARN_SELECTORS ∧
    (handle_init_contract sample_header (sample_msg [0, 0, 0, 0])).result
      = ETH_PLUGIN_RESULT_OK ∧
    (handle_init_contract sample_header (sample_msg [0, 0, 0, 0])).result
      ≠ ETH_PLUGIN_RESULT_UNAVAILABLE ∧
    (handle_init_contract sample_header (sample_msg [0, 0, 0, 0])).pluginContext.selectorIndex
      = DEPOSIT_ALL :=
  ⟨by decide,
   unregistered_selector_reported_ok sample_header (sample_msg [0, 0, 0, 0])
     (by decide) (by decide) (by decide) (by decide)⟩

/-- C2: for every index `i` below 17, a call with the selector `YEARN_SELECTORS[i]`, the latest
interface version and a large enough context buffer sets result OK and `selectorIndex = i`;
no other table entry equals that selector, so none shadows it in the first-match scan. -/
theorem registered_selector_ok (hdr : plugin_header) (msg : ethPluginInitContract_t) (i : Nat)
    (hi : i < NUM_SELECTORS)
    (hv : msg.interfaceVersion = hdr.ETH_PLUGIN_INTERFACE_VERSION_LATEST)
    (hc : hdr.sizeof_context_t ≤ msg.pluginContextLength)
    (hs : msg.selector = YEARN_SELECTORS.getD i []) :
    (handle_init_contract hdr msg).result = ETH_PLUGIN_RESULT_OK ∧
    (handle_init_contract hdr msg).pluginContext.selectorIndex = i ∧
    ∀ j, j < NUM_SELECTORS → j ≠ i → YEARN_SELECTORS.getD j [] ≠ msg.selector := by
  rw [handle_init_contract_of_entry hdr msg i hv hc hi hs]
  refine ⟨rfl, rfl, ?_⟩
  intro j hj hji h
  rw [hs] at h
  exact hji (YEARN_SELECTORS_injective j hj i hi h)

/-- C2 at `IB_BORROW` with the sample header and message. -/
theorem registered_selector_ok_witness :
    (handle_init_contract sample_header (sample_msg IB_BORROW_SELECTOR)).result
      = ETH_PLUGIN_RESULT_OK ∧
    (handle_init_contract sample_header (sample_msg IB_BORROW_SELECTOR)).pluginContext.selectorIndex
      = IB_BORROW ∧
    ∀ j, j < NUM_SELECTORS → j ≠ IB_BORROW →
      YEARN_SELECTORS.getD j [] ≠ (sample_msg IB_BORROW_SELECTOR).selector :=
  registered_selector_ok sample_header (sample_msg IB_BORROW_SELECTOR) IB_BORROW
    (by decide) (by decide) (by decide) (by decide)

/-- The three groups of operations of the switch are indices of the table and disjoint. -/
theorem amount_first_operations :
    ∀ op ∈ [DEPOSIT, DEPOSIT_TO, WITHDRAW, WITHDRAW_TO, WITHDRAW_TO_SLIPPAGE, IB_MINT,
        IB_REDEEM, IB_REDEEM_UNDERLYING, IB_BORROW, IB_REPAY_BORROW],
      op < NUM_SELECTORS ∧ op ∉ [DEPOSIT_ALL, WITHDRAW_ALL, CLAIM, EXIT, GET_REWARDS] ∧
        op ∉ [ZAP_IN, ZAP_IN_PICKLE] := by
  decide

theorem zap_operations :
    ∀ op ∈ [ZAP_IN, ZAP_IN_PICKLE],
      op < NUM_SELECTORS ∧ op ∉ [DEPOSIT_ALL, WITHDRAW_ALL, CLAIM, EXIT, GET_REWARDS] := by
  decide

/-- C3: for each of the ten amount-first operations, a call with that operation's selector
that passes the version and capacity checks succeeds, selects that operation and leaves
`next_param = AMOUNT`. -/
theorem amount_first_initial_slot (hdr : plugin_header) (msg : ethPluginInitContract_t)
    (op : Nat)
    (hop : op ∈ [DEPOSIT, DEPOSIT_TO, WITHDRAW, WITHDRAW_TO, WITHDRAW_TO_SLIPPAGE, IB_MINT,
      IB_REDEEM, IB_REDEEM_UNDERLYING, IB_BORROW, IB_REPAY_BORROW])
    (hv : msg.interfaceVersion = hdr.ETH_PLUGIN_INTERFACE_VERSION_LATEST)
    (hc : hdr.sizeof_context_t ≤ msg.pluginContextLength)
    (hs : msg.selector = YEARN_SELECTORS.getD op []) :
    (handle_init_contract hdr msg).result = ETH_PLUGIN_RESULT_OK ∧
    (handle_init_contract hdr msg).pluginContext.selectorIndex = op ∧
    (handle_init_contract hdr msg).pluginContext.next_param = hdr.AMOUNT := by
  obtain ⟨hlt, h1, h2⟩ := amount_first_operations op hop
  rw [handle_init_contract_of_entry hdr msg op hv hc hlt hs]
  simp only [if_neg h1, if_neg h2, and_self]

/-- C3 at `WITHDRAW_TO_SLIPPAGE` with the sample header and message. -/
theorem amount_first_initial_slot_witness :
    (handle_init_contract sample_header (sample_msg WITHDRAW_TO_SLIPPAGE_SELECTOR)).result
      = ETH_PLUGIN_RESULT_OK ∧
    (handle_init_contract sample_header
      (sample_msg WITHDRAW_TO_SLIPPAGE_SELECTOR)).pluginContext.selectorIndex
      = WITHDRAW_TO_SLIPPAGE ∧
    (handle_init_contract sample_header
      (sample_msg WITHDRAW_TO_SLIPPAGE_SELECTOR)).pluginContext.next_param
      = sample_header.AMOUNT :=
  amount_first_initial_slot sample_header (sample_msg WITHDRAW_TO_SLIPPAGE_SELECTOR)
    WITHDRAW_TO_SLIPPAGE (by decide) (by decide) (by decide) (by decide)

/-- C4: for both zap operations, a call with that operation's selector that passes the version
and capacity checks succeeds, selects that operation and leaves `next_param = ZAP_TOKEN`;
the slot is not `AMOUNT`, the two enumerators being different. -/
theorem zap_initial_slot (hdr : plugin_header) (msg : ethPluginInitContract_t) (op : Nat)
    (hop : op ∈ [ZAP_IN, ZAP_IN_PICKLE])
    (henum : hdr.ZAP_TOKEN ≠ hdr.AMOUNT)
    (hv : msg.interfaceVersion = hdr.ETH_PLUGIN_INTERFACE_VERSION_LATEST)
    (hc : hdr.sizeof_context_t ≤ msg.pluginContextLength)
    (hs : msg.selector = YEARN_SELECTORS.getD op []) :
    (handle_init_contract hdr msg).result = ETH_PLUGIN_RESULT_OK ∧
    (handle_init_contract hdr msg).pluginContext.selectorIndex = op ∧
    (handle_init_contract hdr msg).pluginContext.next_param = hdr.ZAP_TOKEN ∧
    (handle_init_contract hdr msg).pluginContext.next_param ≠ hdr.AMOUNT := by
  obtain ⟨hlt, h1⟩ := zap_operations op hop
  rw [handle_init_contract_of_entry hdr msg op hv hc hlt hs]
  simp only [if_neg h1, if_pos hop, ne_eq, true_and]
  exact henum

/-- C4 at `ZAP_IN_PICKLE` with the sample header and message. -/
theorem zap_initial_slot_witness :
    (handle_init_contract sample_header (sample_msg ZAP_IN_PICKLE_SELECTOR)).result
      = ETH_PLUGIN_RESULT_OK ∧
    (handle_init_contract sample_header
      (sample_msg ZAP_IN_PICKLE_SELECTOR)).pluginContext.selectorIndex = ZAP_IN_PICKLE ∧
    (handle_init_contract sample_header
      (sample_msg ZAP_IN_PICKLE_SELECTOR)).pluginContext.next_param = sample_header.ZAP_TOKEN ∧
    (handle_init_contract sample_header
      (sample_msg ZAP_IN_PICKLE_SELECTOR)).pluginContext.next_param ≠ sample_header.AMOUNT :=
  zap_initial_slot sample_header (sample_msg ZAP_IN_PICKLE_SELECTOR) ZAP_IN_PICKLE
    (by decide) (by decide) (by decide) (by decide) (by decide)

/-- When both checks pass, the members other than `selectorIndex` and `next_param` are the
zeroed ones at the end of the call, on every path through the loop and the switch. -/
theorem handle_init_contract_other_fields (hdr : plugin_header)
    (msg : ethPluginInitContract_t)
    (hv : msg.interfaceVersion = hdr.ETH_PLUGIN_INTERFACE_VERSION_LATEST)
    (hc : hdr.sizeof_context_t ≤ msg.pluginContextLength) :
    (handle_init_contract hdr msg).pluginContext.other_fields
      = (memset_zero msg.pluginContext).other_fields := by
  have hfr := (selector_loop_frame msg.selector (memset_zero msg.pluginContext)
    (NUM_SELECTORS + 1) 0).2
  unfold handle_init_contract
  rw [if_neg (not_not.2 hv), if_neg (not_lt.2 hc)]
  simp only
  split_ifs <;> exact hfr

/-- A call that ends in OK has passed both checks. -/
theorem checks_of_result_ok (hdr : plugin_header) (msg : ethPluginInitContract_t)
    (hok : (handle_init_contract hdr msg).result = ETH_PLUGIN_RESULT_OK) :
    msg.interfaceVersion = hdr.ETH_PLUGIN_INTERFACE_VERSION_LATEST ∧
    hdr.sizeof_context_t ≤ msg.pluginContextLength := by
  unfold handle_init_contract at hok
  by_cases hv : msg.interfaceVersion = hdr.ETH_PLUGIN_INTERFACE_VERSION_LATEST
  · by_cases hc : msg.pluginContextLength < hdr.sizeof_context_t
    · rw [if_neg (not_not.2 hv), if_pos hc] at hok
      cases hok
    · exact ⟨hv, not_lt.1 hc⟩
  · rw [if_pos hv] at hok
    cases hok

/-- C6: whenever the call finishes with result OK, the context is the zeroed context with only
`selectorIndex` and `next_param` set: every byte of every other member is 0 (as many bytes
as before the call), whatever the context held before. -/
theorem ok_context_zeroed (hdr : plugin_header) (msg : ethPluginInitContract_t)
    (hok : (handle_init_contract hdr msg).result = ETH_PLUGIN_RESULT_OK) :
    (handle_init_contract hdr msg).pluginContext
      = { memset_zero msg.pluginContext with
          selectorIndex := (handle_init_contract hdr msg).pluginContext.selectorIndex
          next_param := (handle_init_contract hdr msg).pluginContext.next_param } ∧
    (handle_init_contract hdr msg).pluginContext.other_fields
      = List.replicate msg.pluginContext.other_fields.length 0 ∧
    ∀ b ∈ (handle_init_contract hdr msg).pluginContext.other_fields, b = 0 := by
  obtain ⟨hv, hc⟩ := checks_of_result_ok hdr msg hok
  have h := handle_init_contract_other_fields hdr msg hv hc
  have hz : (memset_zero msg.pluginContext).other_fields
      = List.replicate msg.pluginContext.other_fields.length 0 := by
    simp [memset_zero]
  refine ⟨?_, h.trans hz, ?_⟩
  · show (handle_init_contract hdr msg).pluginContext
      = context_t.mk (handle_init_contract hdr msg).pluginContext.selectorIndex
          (handle_init_contract hdr msg).pluginContext.next_param
          (memset_zero msg.pluginContext).other_fields
    rw [← h]
  · intro b hb
    rw [h, hz] at hb
    exact List.eq_of_mem_replicate hb

/-- C6 on a stale context: the four left-over bytes are zero after a successful call. -/
theorem ok_context_zeroed_witness :
    (sample_msg DEPOSIT_SELECTOR).pluginContext.other_fields = [0xde, 0xad, 0xbe, 0xef] ∧
    (handle_init_contract sample_header (sample_msg DEPOSIT_SELECTOR)).pluginContext
      = { selectorIndex := DEPOSIT, next_param := sample_header.AMOUNT,
          other_fields := [0, 0, 0, 0] } ∧
    (handle_init_contract sample_header (sample_msg DEPOSIT_SELECTOR)).pluginContext.other_fields
      = List.replicate (sample_msg DEPOSIT_SELECTOR).pluginContext.other_fields.length 0 ∧
    ∀ b ∈ (handle_init_contract sample_header
      (sample_msg DEPOSIT_SELECTOR)).pluginContext.other_fields, b = 0 :=
  ⟨by decide, by decide,
   (ok_context_zeroed sample_header (sample_msg DEPOSIT_SELECTOR) (by decide)).2⟩

/-- C7: for any two prior contents `c1`, `c2` of the context buffer (the same buffer, so the
same number of bytes) and the same interface version, capacity and selector, when the
version and capacity checks pass the call produces the same status and the same context
from `c1` as from `c2`; the prior status does not matter either. -/
theorem init_independent_of_prior_context (hdr : plugin_header) (c1 c2 : context_t)
    (r1 r2 : eth_plugin_result_t) (version capacity : Nat) (selector : List Nat)
    (hsize : c1.other_fields.length = c2.other_fields.length)
    (hv : version = hdr.ETH_PLUGIN_INTERFACE_VERSION_LATEST)
    (hc : hdr.sizeof_context_t ≤ capacity) :
    (handle_init_contract hdr
      { interfaceVersion := version, result := r1, pluginContext := c1,
        pluginContextLength := capacity, selector := selector }).result
    = (handle_init_contract hdr
      { interfaceVersion := version, result := r2, pluginContext := c2,
        pluginContextLength := capacity, selector := selector }).result ∧
    (handle_init_contract hdr
      { interfaceVersion := version, result := r1, pluginContext := c1,
        pluginContextLength := capacity, selector := selector }).pluginContext
    = (handle_init_contract hdr
      { interfaceVersion := version, result := r2, pluginContext := c2,
        pluginContextLength := capacity, selector := selector }).pluginContext := by
  have hz := memset_zero_eq c1 c2 hsize
  unfold handle_init_contract
  dsimp only
  simp only [if_neg (not_not.2 hv), if_neg (not_lt.2 hc), hz]
  generalize selector_loop selector (memset_zero c2) (NUM_SELECTORS + 1) 0 = scan
  split_ifs <;> exact ⟨rfl, rfl⟩

/-- C7 on two different stale contexts and the selector of `IB_MINT`. -/
theorem init_independent_of_prior_context_witness :
    stale_context ≠ stale_context_2 ∧
    (handle_init_contract sample_header
      { interfaceVersion := 2, result := ETH_PLUGIN_RESULT_ERROR, pluginContext := stale_context,
        pluginContextLength := 6, selector := IB_MINT_SELECTOR }).result
    = (handle_init_contract sample_header
      { interfaceVersion := 2, result := ETH_PLUGIN_RESULT_OK, pluginContext := stale_context_2,
        pluginContextLength := 6, selector := IB_MINT_SELECTOR }).result ∧
    (handle_init_contract sample_header
      { interfaceVersion := 2, result := ETH_PLUGIN_RESULT_ERROR, pluginContext := stale_context,
        pluginContextLength := 6, selector := IB_MINT_SELECTOR }).pluginContext
    = (handle_init_contract sample_header
      { interfaceVersion := 2, result := ETH_PLUGIN_RESULT_OK, pluginContext := stale_context_2,
        pluginContextLength := 6, selector := IB_MINT_SELECTOR }).pluginContext :=
  ⟨by decide,
   init_independent_of_prior_context sample_header stale_context stale_context_2
     ETH_PLUGIN_RESULT_ERROR ETH_PLUGIN_RESULT_OK 2 6 IB_MINT_SELECTOR
     (by decide) (by decide) (by decide)⟩

/-- The message after a call with an interface version other than the latest. -/
theorem handle_init_contract_of_version (hdr : plugin_header) (msg : ethPluginInitContract_t)
    (hv : msg.interfaceVersion ≠ hdr.ETH_PLUGIN_INTERFACE_VERSION_LATEST) :
    handle_init_contract hdr msg = { msg with result := ETH_PLUGIN_RESULT_UNAVAILABLE } := by
  unfold handle_init_contract
  rw [if_pos hv]

/-- The message after a call with the latest interface version and too small a buffer. -/
theorem handle_init_contract_of_undersized (hdr : plugin_header)
    (msg : ethPluginInitContract_t)
    (hv : msg.interfaceVersion = hdr.ETH_PLUGIN_INTERFACE_VERSION_LATEST)
    (hc : msg.pluginContextLength < hdr.sizeof_context_t) :
    handle_init_contract hdr msg = { msg with result := ETH_PLUGIN_RESULT_ERROR } := by
  unfold handle_init_contract
  rw [if_neg (not_not.2 hv), if_pos hc]

/-- C8: with the latest interface version and `pluginContextLength < sizeof(context_t)`, the
call sets result ERROR and writes nothing else: the context buffer is as before the call
(neither zeroed nor given an operation), for every selector. -/
theorem undersized_context_error (hdr : plugin_header) (msg : ethPluginInitContract_t)
    (hv : msg.interfaceVersion = hdr.ETH_PLUGIN_INTERFACE_VERSION_LATEST)
    (hc : msg.pluginContextLength < hdr.sizeof_context_t) :
    (handle_init_contract hdr msg).result = ETH_PLUGIN_RESULT_ERROR ∧
    (handle_init_contract hdr msg).pluginContext = msg.pluginContext ∧
    handle_init_contract hdr msg = { msg with result := ETH_PLUGIN_RESULT_ERROR } := by
  rw [handle_init_contract_of_undersized hdr msg hv hc]
  exact ⟨rfl, rfl, rfl⟩

/-- C8 on a buffer one byte short: the stale context comes back untouched. -/
theorem undersized_context_error_witness :
    (handle_init_contract sample_header (undersized_msg DEPOSIT_SELECTOR)).result
      = ETH_PLUGIN_RESULT_ERROR ∧
    (handle_init_contract sample_header (undersized_msg DEPOSIT_SELECTOR)).pluginContext
      = (undersized_msg DEPOSIT_SELECTOR).pluginContext ∧
    handle_init_contract sample_header (undersized_msg DEPOSIT_SELECTOR)
      = { undersized_msg DEPOSIT_SELECTOR with result := ETH_PLUGIN_RESULT_ERROR } :=
  undersized_context_error sample_header (undersized_msg DEPOSIT_SELECTOR)
    (by decide) (by decide)

/-- C9: with an interface version other than the latest, the call sets result UNAVAILABLE and
leaves the context buffer as it was, for every selector and every capacity, an undersized
one included: the version check comes before the size check. -/
theorem version_mismatch_unavailable (hdr : plugin_header) (msg : ethPluginInitContract_t)
    (hv : msg.interfaceVersion ≠ hdr.ETH_PLUGIN_INTERFACE_VERSION_LATEST) :
    (handle_init_contract hdr msg).result = ETH_PLUGIN_RESULT_UNAVAILABLE ∧
    (handle_init_contract hdr msg).pluginContext = msg.pluginContext ∧
    handle_init_contract hdr msg = { msg with result := ETH_PLUGIN_RESULT_UNAVAILABLE } := by
  rw [handle_init_contract_of_version hdr msg hv]
  exact ⟨rfl, rfl, rfl⟩

/-- C9 on a message that has both an old version and an undersized buffer. -/
theorem version_mismatch_unavailable_witness :
    ({ undersized_msg EXIT_SELECTOR with interfaceVersion := 1 }
        : ethPluginInitContract_t).pluginContextLength < sample_header.sizeof_context_t ∧
    (handle_init_contract sample_header
      { undersized_msg EXIT_SELECTOR with interfaceVersion := 1 }).result
      = ETH_PLUGIN_RESULT_UNAVAILABLE ∧
    (handle_init_contract sample_header
      { undersized_msg EXIT_SELECTOR with interfaceVersion := 1 }).pluginContext
      = stale_context ∧
    handle_init_contract sample_header { undersized_msg EXIT_SELECTOR with interfaceVersion := 1 }
      = { undersized_msg EXIT_SELECTOR with
          interfaceVersion := 1, result := ETH_PLUGIN_RESULT_UNAVAILABLE } :=
  ⟨by decide,
   version_mismatch_unavailable sample_header
     { undersized_msg EXIT_SELECTOR with interfaceVersion := 1 } (by decide)⟩

/-- C10 as stated fails: for the selector of `DEPOSIT`, a version mismatch with an adequate
buffer returns UNAVAILABLE while an undersized buffer with the right version returns ERROR,
so the two statuses are not equal. -/
theorem incompatible_outcomes_not_equal :
    (old_version_msg DEPOSIT_SELECTOR).interfaceVersion
      ≠ sample_header.ETH_PLUGIN_INTERFACE_VERSION_LATEST ∧
    sample_header.sizeof_context_t ≤ (old_version_msg DEPOSIT_SELECTOR).pluginContextLength ∧
    (undersized_msg DEPOSIT_SELECTOR).interfaceVersion
      = sample_header.ETH_PLUGIN_INTERFACE_VERSION_LATEST ∧
    (undersized_msg DEPOSIT_SELECTOR).pluginContextLength < sample_header.sizeof_context_t ∧
    (old_version_msg DEPOSIT_SELECTOR).selector = (undersized_msg DEPOSIT_SELECTOR).selector ∧
    (handle_init_contract sample_header (old_version_msg DEPOSIT_SELECTOR)).result
      ≠ (handle_init_contract sample_header (undersized_msg DEPOSIT_SELECTOR)).result := by
  decide

/-- C10 (amended): the two incompatibility conditions have different outcomes.  For every
selector, a version mismatch (with an adequate buffer, or any other) returns UNAVAILABLE and
an undersized buffer (with the right version) returns ERROR, and the two statuses differ;
the messages `m1` and `m2` may carry any selectors, the same one in particular. -/
theorem incompatible_outcomes (hdr : plugin_header) (m1 m2 : ethPluginInitContract_t)
    (hv1 : m1.interfaceVersion ≠ hdr.ETH_PLUGIN_INTERFACE_VERSION_LATEST)
    (hv2 : m2.interfaceVersion = hdr.ETH_PLUGIN_INTERFACE_VERSION_LATEST)
    (hc2 : m2.pluginContextLength < hdr.sizeof_context_t) :
    (handle_init_contract hdr m1).result = ETH_PLUGIN_RESULT_UNAVAILABLE ∧
    (handle_init_contract hdr m2).result = ETH_PLUGIN_RESULT_ERROR ∧
    (handle_init_contract hdr m1).result ≠ (handle_init_contract hdr m2).result := by
  rw [handle_init_contract_of_version hdr m1 hv1,
    handle_init_contract_of_undersized hdr m2 hv2 hc2]
  refine ⟨rfl, rfl, ?_⟩
  intro h
  cases h

/-- C10 (amended) on the two sample messages with the selector of `GET_REWARDS`. -/
theorem incompatible_outcomes_witness :
    (handle_init_contract sample_header (old_version_msg GET_REWARDS_SELECTOR)).result
      = ETH_PLUGIN_RESULT_UNAVAILABLE ∧
    (handle_init_contract sample_header (undersized_msg GET_REWARDS_SELECTOR)).result
      = ETH_PLUGIN_RESULT_ERROR ∧
    (handle_init_contract sample_header (old_version_msg GET_REWARDS_SELECTOR)).result
      ≠ (handle_init_contract sample_header (undersized_msg GET_REWARDS_SELECTOR)).result :=
  incompatible_outcomes sample_header (old_version_msg GET_REWARDS_SELECTOR)
    (undersized_msg GET_REWARDS_SELECTOR) (by decide) (by decide) (by decide)

/-! ## Auxiliary facts on the vault registries -/

/-- Comparing two addresses of `ADDRESS_LENGTH` bytes is comparing the two. -/
theorem memcmp_address_eq_zero_iff (a b : List Nat) (ha : a.length = ADDRESS_LENGTH)
    (hb : b.length = ADDRESS_LENGTH) : memcmp a b ADDRESS_LENGTH = 0 ↔ a = b := by
  rw [memcmp_eq_zero_iff, List.take_of_length_le (le_of_eq ha),
    List.take_of_length_le (le_of_eq hb)]

/-- An entry returned by the lookup is in the table and its address compares equal. -/
theorem vault_registry_lookup_some (address : List Nat) (e : yearnVaultDefinition_t) :
    ∀ table, vault_registry_lookup table address = some e →
      e ∈ table ∧ memcmp e.address address ADDRESS_LENGTH = 0 := by
  intro table
  induction table with
  | nil => intro h; simp [vault_registry_lookup] at h
  | cons v table ih =>
    intro h
    unfold vault_registry_lookup at h
    by_cases hm : memcmp v.address address ADDRESS_LENGTH = 0
    · rw [if_pos hm] at h
      cases h
      exact ⟨List.mem_cons_self _ _, hm⟩
    · rw [if_neg hm] at h
      exact ⟨List.mem_cons_of_mem _ (ih h).1, (ih h).2⟩

/-- The lookup finds nothing when no entry compares equal. -/
theorem vault_registry_lookup_none (address : List Nat) :
    ∀ table, (∀ v ∈ table, memcmp v.address address ADDRESS_LENGTH ≠ 0) →
      vault_registry_lookup table address = none := by
  intro table
  induction table with
  | nil => intro _; rfl
  | cons v table ih =>
    intro h
    unfold vault_registry_lookup
    rw [if_neg (h v (List.mem_cons_self _ _))]
    exact ih (fun w hw => h w (List.mem_cons_of_mem _ hw))

/-- In a table of pairwise distinct 20-byte addresses the lookup of an entry's address returns
that entry: no earlier entry shadows it. -/
theorem vault_registry_lookup_self :
    ∀ table : List yearnVaultDefinition_t,
      (∀ v ∈ table, v.address.length = ADDRESS_LENGTH) →
      (table.map (fun v => v.address)).Nodup →
      ∀ e ∈ table, vault_registry_lookup table e.address = some e := by
  intro table
  induction table with
  | nil => intro _ _ e he; cases he
  | cons v table ih =>
    intro hlen hnd e he
    have hv := hlen v (List.mem_cons_self _ _)
    have hel := hlen e he
    rw [List.map_cons, List.nodup_cons] at hnd
    unfold vault_registry_lookup
    rcases List.mem_cons.1 he with hev | het
    · subst hev
      rw [if_pos ((memcmp_address_eq_zero_iff _ _ hv hv).2 rfl)]
    · have hne : ¬ memcmp v.address e.address ADDRESS_LENGTH = 0 := by
        rw [memcmp_address_eq_zero_iff _ _ hv hel]
        intro hve
        apply hnd.1
        rw [hve]
        exact List.mem_map_of_mem (fun v => v.address) het
      rw [if_neg hne]
      exact ih (fun w hw => hlen w (List.mem_cons_of_mem _ hw)) hnd.2 e het

theorem YEARN_VAULTS_length : YEARN_VAULTS.length = NUM_YEARN_VAULTS := by decide

theorem IRON_BANK_length : IRON_BANK.length = NUM_IRON_BANK := by decide

set_option maxRecDepth 100000 in
/-- Every address of the two registries has `ADDRESS_LENGTH` bytes. -/
theorem vault_address_length :
    ∀ v ∈ YEARN_VAULTS ++ IRON_BANK, v.address.length = ADDRESS_LENGTH := by
  decide

set_option maxRecDepth 100000 in
/-- The 117 addresses of the two registries are pairwise distinct. -/
theorem vault_addresses_nodup :
    ((YEARN_VAULTS ++ IRON_BANK).map (fun v => v.address)).Nodup := by
  decide

/-- Inverting one bit of a number changes it. -/
theorem xor_two_pow_ne (n k : Nat) : n ^^^ 2 ^ k ≠ n := by
  intro h
  have h2 : n ^^^ (n ^^^ 2 ^ k) = 2 ^ k := Nat.xor_cancel_left n (2 ^ k)
  rw [h, Nat.xor_self] at h2
  exact absurd h2.symm (Nat.pos_iff_ne_zero.1 (Nat.two_pow_pos k))

/-- A sequence that differs from `a` in exactly one bit has the length of `a` and is not `a`. -/
theorem differ_in_one_bit_ne (a b : List Nat) (h : differ_in_one_bit a b) :
    b.length = a.length ∧ a ≠ b := by
  obtain ⟨i, hi, k, _, hb⟩ := h
  subst hb
  refine ⟨by simp [flip_bit], ?_⟩
  intro heq
  have hget : (flip_bit a i k).getD i 0 = a.getD i 0 := by rw [← heq]
  unfold flip_bit at hget
  rw [List.getD_eq_getElem _ _ (by simpa using hi), List.getElem_set_self] at hget
  exact xor_two_pow_ne _ _ hget


set_option maxRecDepth 100000 in
/-- The all-zero address is in neither registry, and its lookup finds nothing in either. -/
theorem zero_address_absent :
    (∀ v ∈ YEARN_VAULTS ++ IRON_BANK, v.address ≠ List.replicate ADDRESS_LENGTH 0) ∧
    vault_registry_lookup YEARN_VAULTS (List.replicate ADDRESS_LENGTH 0) = none ∧
    vault_registry_lookup IRON_BANK (List.replicate ADDRESS_LENGTH 0) = none := by
  decide

/-! ## Properties of the vault registries -/

/-- C11: the registries are a mapping keyed by address.  `YEARN_VAULTS` has 85 entries and
`IRON_BANK` 32, their 117 addresses are pairwise distinct, and so the first-match scan by
byte equality on the address of any entry returns that very entry in its own table and
finds nothing in the other table. -/
theorem vault_registries_keyed_by_address :
    YEARN_VAULTS.length = NUM_YEARN_VAULTS ∧ IRON_BANK.length = NUM_IRON_BANK ∧
    ((YEARN_VAULTS ++ IRON_BANK).map (fun v => v.address)).Nodup ∧
    (∀ e ∈ YEARN_VAULTS,
      vault_registry_lookup YEARN_VAULTS e.address = some e ∧
      vault_registry_lookup IRON_BANK e.address = none) ∧
    (∀ e ∈ IRON_BANK,
      vault_registry_lookup IRON_BANK e.address = some e ∧
      vault_registry_lookup YEARN_VAULTS e.address = none) := by
  have hnd := vault_addresses_nodup
  have hlen := vault_address_length
  have hlenY : ∀ v ∈ YEARN_VAULTS, v.address.length = ADDRESS_LENGTH :=
    fun v hv => hlen v (List.mem_append_left _ hv)
  have hlenI : ∀ v ∈ IRON_BANK, v.address.length = ADDRESS_LENGTH :=
    fun v hv => hlen v (List.mem_append_right _ hv)
  rw [List.map_append, List.nodup_append] at hnd
  obtain ⟨hY, hI, hdis⟩ := hnd
  refine ⟨YEARN_VAULTS_length, IRON_BANK_length, vault_addresses_nodup, ?_, ?_⟩
  · intro e he
    refine ⟨vault_registry_lookup_self YEARN_VAULTS hlenY hY e he, ?_⟩
    apply vault_registry_lookup_none
    intro v hv hm
    rw [memcmp_address_eq_zero_iff _ _ (hlenI v hv) (hlenY e he)] at hm
    exact hdis (List.mem_map_of_mem (fun v => v.address) he)
      (hm ▸ List.mem_map_of_mem (fun v => v.address) hv)
  · intro e he
    refine ⟨vault_registry_lookup_self IRON_BANK hlenI hI e he, ?_⟩
    apply vault_registry_lookup_none
    intro v hv hm
    rw [memcmp_address_eq_zero_iff _ _ (hlenY v hv) (hlenI e he)] at hm
    exact hdis (hm ▸ List.mem_map_of_mem (fun v => v.address) hv)
      (List.mem_map_of_mem (fun v => v.address) he)

/-- C12: for every entry `e` of `YEARN_VAULTS` or `IRON_BANK` and every address `b` that
differs from the address of `e` in exactly one bit, the byte-for-byte first-match lookup of
`b` does not return `e`, in either table. -/
theorem one_bit_off_not_matched (e : yearnVaultDefinition_t) (b : List Nat)
    (he : e ∈ YEARN_VAULTS ++ IRON_BANK) (hb : differ_in_one_bit e.address b) :
    vault_registry_lookup YEARN_VAULTS b ≠ some e ∧
    vault_registry_lookup IRON_BANK b ≠ some e := by
  obtain ⟨hblen, hne⟩ := differ_in_one_bit_ne e.address b hb
  have hel := vault_address_length e he
  have key : ∀ table, vault_registry_lookup table b ≠ some e := by
    intro table h
    have hm := (vault_registry_lookup_some b e table h).2
    rw [memcmp_address_eq_zero_iff _ _ hel (hblen.trans hel)] at hm
    exact hne hm
  exact ⟨key _, key _⟩

/-- C12 at the first entry of `YEARN_VAULTS` with the lowest bit of its last byte inverted:
the address ends in `0xba` instead of `0xbb` and is not resolved to that entry. -/
theorem one_bit_off_not_matched_witness :
    flip_bit first_dai_vault.address 19 0
      = [0xbf, 0xa4, 0xd8, 0xaa, 0x6d, 0x8a, 0x37, 0x9a, 0xbf, 0xe7,
         0x79, 0x33, 0x99, 0xd3, 0xdd, 0xac, 0xc5, 0xbb, 0xec, 0xba] ∧
    vault_registry_lookup YEARN_VAULTS first_dai_vault.address = some first_dai_vault ∧
    vault_registry_lookup YEARN_VAULTS (flip_bit first_dai_vault.address 19 0)
      ≠ some first_dai_vault ∧
    vault_registry_lookup IRON_BANK (flip_bit first_dai_vault.address 19 0)
      ≠ some first_dai_vault :=
  ⟨by decide, by decide,
   one_bit_off_not_matched first_dai_vault (flip_bit first_dai_vault.address 19 0)
     (by decide) ⟨19, by decide, 0, by decide, rfl⟩⟩

/-- C13: the registry holds duplicate symbols for different deployments.  The entries of
`YEARN_VAULTS` at index 0 and index 3 have different addresses and the same underlying
symbol `DAI`, vault-share symbol `yvDAI` and decimals 18. -/
theorem duplicate_symbols_different_addresses :
    ∃ v w, YEARN_VAULTS[0]? = some v ∧ YEARN_VAULTS[3]? = some w ∧
      v.address ≠ w.address ∧
      v.underlying_symbol = w.underlying_symbol ∧ v.underlying_symbol = "DAI" ∧
      v.vault_symbol = w.vault_symbol ∧ v.vault_symbol = "yvDAI" ∧
      v.decimals = w.decimals ∧ v.decimals = 18 :=
  ⟨_, _, rfl, rfl, by decide, by decide, by decide, by decide, by decide, by decide, by decide⟩

/-- C18: no entry of `YEARN_VAULTS` or `IRON_BANK` has the all-zero address, so an address
member of a freshly zeroed context (any `ADDRESS_LENGTH` bytes of its other members, at
whatever offset) is the all-zero address and is not found in either registry. -/
theorem zeroed_address_not_found (c : context_t) (offset : Nat)
    (h : offset + ADDRESS_LENGTH ≤ c.other_fields.length) :
    (∀ v ∈ YEARN_VAULTS ++ IRON_BANK, v.address ≠ List.replicate ADDRESS_LENGTH 0) ∧
    ((memset_zero c).other_fields.drop offset).take ADDRESS_LENGTH
      = List.replicate ADDRESS_LENGTH 0 ∧
    vault_registry_lookup YEARN_VAULTS
      (((memset_zero c).other_fields.drop offset).take ADDRESS_LENGTH) = none ∧
    vault_registry_lookup IRON_BANK
      (((memset_zero c).other_fields.drop offset).take ADDRESS_LENGTH) = none := by
  have hz : ((memset_zero c).other_fields.drop offset).take ADDRESS_LENGTH
      = List.replicate ADDRESS_LENGTH 0 := by
    simp only [memset_zero, List.map_const', List.drop_replicate, List.take_replicate]
    congr 1
    omega
  rw [hz]
  exact ⟨zero_address_absent.1, rfl, zero_address_absent.2.1, zero_address_absent.2.2⟩

/-- C18 on a context that held the address of the first vault before it was zeroed. -/
theorem zeroed_address_not_found_witness :
    vault_registry_lookup YEARN_VAULTS
      ((stale_context_with_address.other_fields.drop 0).take ADDRESS_LENGTH)
      = some first_dai_vault ∧
    ((∀ v ∈ YEARN_VAULTS ++ IRON_BANK, v.address ≠ List.replicate ADDRESS_LENGTH 0) ∧
    ((memset_zero stale_context_with_address).other_fields.drop 0).take ADDRESS_LENGTH
      = List.replicate ADDRESS_LENGTH 0 ∧
    vault_registry_lookup YEARN_VAULTS
      (((memset_zero stale_context_with_address).other_fields.drop 0).take ADDRESS_LENGTH)
      = none ∧
    vault_registry_lookup IRON_BANK
      (((memset_zero stale_context_with_address).other_fields.drop 0).take ADDRESS_LENGTH)
      = none) :=
  ⟨by decide, zeroed_address_not_found stale_context_with_address 0 (by decide)⟩

set_option maxRecDepth 100000 in
/-- C19: every entry of `YEARN_VAULTS` and `IRON_BANK` has a decimal precision among 2, 6, 8
and 18, hence at most 18, so that `10 ^ decimals` is below `2 ^ 64`; its underlying symbol
and its vault-share symbol are non-empty and have at most 17 characters. -/
theorem vault_metadata_bounds :
    ∀ v ∈ YEARN_VAULTS ++ IRON_BANK,
      v.decimals ∈ [2, 6, 8, 18] ∧ v.decimals ≤ 18 ∧ 10 ^ v.decimals < 2 ^ 64 ∧
      0 < v.underlying_symbol.length ∧ v.underlying_symbol.length ≤ 17 ∧
      0 < v.vault_symbol.length ∧ v.vault_symbol.length ≤ 17 := by
  decide


/-- C19 at the first entry of `YEARN_VAULTS`: decimals 18, symbols `DAI` and `yvDAI`. -/
theorem vault_metadata_bounds_witness :
    first_dai_vault.decimals ∈ [2, 6, 8, 18] ∧ first_dai_vault.decimals ≤ 18 ∧
    10 ^ first_dai_vault.decimals < 2 ^ 64 ∧
    0 < first_dai_vault.underlying_symbol.length ∧
    first_dai_vault.underlying_symbol.length ≤ 17 ∧
    0 < first_dai_vault.vault_symbol.length ∧ first_dai_vault.vault_symbol.length ≤ 17 :=
  vault_metadata_bounds first_dai_vault (by decide)

/-! ## Properties of the dispatcher -/

/-- C14: the dispatcher invokes one handler per recognised message, the right one.  With the
six message codes distinct (they label the cases of one switch), the effect of the message
`ETH_PLUGIN_INIT_CONTRACT` is that of `handle_init_contract` on the message behind
`parameters`, nothing else being touched, and the effect of each of the other five codes is
that of one call of its own handler, whatever the five handlers do. -/
theorem dispatch_routes_to_handler {β : Type} (hdr : plugin_header) (m : plugin_messages)
    (h : plugin_handlers β) (parameters : parameters_t β) (hdistinct : m.codes.Nodup) :
    dispatch_plugin_calls hdr m h m.ETH_PLUGIN_INIT_CONTRACT parameters
      = { init_contract := handle_init_contract hdr parameters.init_contract
          other := parameters.other } ∧
    dispatch_plugin_calls hdr m h m.ETH_PLUGIN_PROVIDE_PARAMETER parameters
      = h.handle_provide_parameter parameters ∧
    dispatch_plugin_calls hdr m h m.ETH_PLUGIN_FINALIZE parameters
      = h.handle_finalize parameters ∧
    dispatch_plugin_calls hdr m h m.ETH_PLUGIN_PROVIDE_INFO parameters
      = h.handle_provide_token parameters ∧
    dispatch_plugin_calls hdr m h m.ETH_PLUGIN_QUERY_CONTRACT_ID parameters
      = h.handle_query_contract_id parameters ∧
    dispatch_plugin_calls hdr m h m.ETH_PLUGIN_QUERY_CONTRACT_UI parameters
      = h.handle_query_contract_ui parameters := by
  simp only [plugin_messages.codes, List.nodup_cons, List.mem_cons, List.mem_singleton,
    List.not_mem_nil, not_or, or_false, not_false_eq_true, List.nodup_nil, and_true]
    at hdistinct
  obtain ⟨⟨h12, h13, h14, h15, h16⟩, ⟨h23, h24, h25, h26⟩, ⟨h34, h35, h36⟩, ⟨h45, h46⟩, h56⟩ :=
    hdistinct
  unfold dispatch_plugin_calls
  refine ⟨?_, ?_, ?_, ?_, ?_, ?_⟩
  · rw [if_pos rfl]
  · rw [if_neg (Ne.symm h12), if_pos rfl]
  · rw [if_neg (Ne.symm h13), if_neg (Ne.symm h23), if_pos rfl]
  · rw [if_neg (Ne.symm h14), if_neg (Ne.symm h24), if_neg (Ne.symm h34), if_pos rfl]
  · rw [if_neg (Ne.symm h15), if_neg (Ne.symm h25), if_neg (Ne.symm h35),
      if_neg (Ne.symm h45), if_pos rfl]
  · rw [if_neg (Ne.symm h16), if_neg (Ne.symm h26), if_neg (Ne.symm h36),
      if_neg (Ne.symm h46), if_neg (Ne.symm h56), if_pos rfl]

/-- C14 with handlers that log their calls: each of the five codes leaves exactly one call in
the log, that of its own handler, and the init message leaves none and initialises. -/
theorem dispatch_routes_to_handler_witness :
    (dispatch_plugin_calls sample_header sample_messages logging_handlers
      sample_messages.ETH_PLUGIN_INIT_CONTRACT sample_parameters
      = { init_contract := handle_init_contract sample_header sample_parameters.init_contract
          other := sample_parameters.other } ∧
    dispatch_plugin_calls sample_header sample_messages logging_handlers
      sample_messages.ETH_PLUGIN_PROVIDE_PARAMETER sample_parameters
      = logging_handlers.handle_provide_parameter sample_parameters ∧
    dispatch_plugin_calls sample_header sample_messages logging_handlers
      sample_messages.ETH_PLUGIN_FINALIZE sample_parameters
      = logging_handlers.handle_finalize sample_parameters ∧
    dispatch_plugin_calls sample_header sample_messages logging_handlers
      sample_messages.ETH_PLUGIN_PROVIDE_INFO sample_parameters
      = logging_handlers.handle_provide_token sample_parameters ∧
    dispatch_plugin_calls sample_header sample_messages logging_handlers
      sample_messages.ETH_PLUGIN_QUERY_CONTRACT_ID sample_parameters
      = logging_handlers.handle_query_contract_id sample_parameters ∧
    dispatch_plugin_calls sample_header sample_messages logging_handlers
      sample_messages.ETH_PLUGIN_QUERY_CONTRACT_UI sample_parameters
      = logging_handlers.handle_query_contract_ui sample_parameters) ∧
    (dispatch_plugin_calls sample_header sample_messages logging_handlers
      sample_messages.ETH_PLUGIN_FINALIZE sample_parameters).other = ["handle_finalize"] ∧
    (dispatch_plugin_calls sample_header sample_messages logging_handlers
      sample_messages.ETH_PLUGIN_INIT_CONTRACT sample_parameters).other = [] ∧
    (dispatch_plugin_calls sample_header sample_messages logging_handlers
      sample_messages.ETH_PLUGIN_INIT_CONTRACT sample_parameters).init_contract.result
      = ETH_PLUGIN_RESULT_OK :=
  ⟨dispatch_routes_to_handler sample_header sample_messages logging_handlers sample_parameters
     (by decide),
   by decide, by decide, by decide⟩

/-- C15: for every message code that is not one of the six recognised ones the dispatcher
calls no handler: the memory behind `parameters`, the result field and the decode context
included, is as before the call, whatever the handlers do. -/
theorem dispatch_unknown_message_unchanged {β : Type} (hdr : plugin_header)
    (m : plugin_messages) (h : plugin_handlers β) (message : Int)
    (parameters : parameters_t β) (hunknown : message ∉ m.codes) :
    dispatch_plugin_calls hdr m h message parameters = parameters ∧
    (dispatch_plugin_calls hdr m h message parameters).init_contract.result
      = parameters.init_contract.result ∧
    (dispatch_plugin_calls hdr m h message parameters).init_contract.pluginContext
      = parameters.init_contract.pluginContext := by
  simp only [plugin_messages.codes, List.mem_cons, List.mem_singleton, List.not_mem_nil,
    not_or, or_false] at hunknown
  obtain ⟨h1, h2, h3, h4, h5, h6⟩ := hunknown
  have key : dispatch_plugin_calls hdr m h message parameters = parameters := by
    unfold dispatch_plugin_calls
    rw [if_neg h1, if_neg h2, if_neg h3, if_neg h4, if_neg h5, if_neg h6]
  rw [key]
  exact ⟨rfl, rfl, rfl⟩

/-- C15 at the code 0x1ff with the logging handlers: the log stays empty and the stale
context and status of the message are as before. -/
theorem dispatch_unknown_message_unchanged_witness :
    (dispatch_plugin_calls sample_header sample_messages logging_handlers 0x1ff
      sample_parameters).other = [] ∧
    (dispatch_plugin_calls sample_header sample_messages logging_handlers 0x1ff
        sample_parameters = sample_parameters ∧
      (dispatch_plugin_calls sample_header sample_messages logging_handlers 0x1ff
        sample_parameters).init_contract.result = sample_parameters.init_contract.result ∧
      (dispatch_plugin_calls sample_header sample_messages logging_handlers 0x1ff
        sample_parameters).init_contract.pluginContext
        = sample_parameters.init_contract.pluginContext) :=
  ⟨by decide,
   dispatch_unknown_message_unchanged sample_header sample_messages logging_handlers 0x1ff
     sample_parameters (by decide)⟩


/-! ## Further properties of the initialisation -/

/-- The loop leaves `selectorIndex` as it was or sets it to an index of the table. -/
theorem selector_loop_selectorIndex (selector : List Nat) (context : context_t) :
    ∀ fuel i,
      (selector_loop selector context fuel i).2.selectorIndex = context.selectorIndex ∨
      (selector_loop selector context fuel i).2.selectorIndex < NUM_SELECTORS := by
  intro fuel
  induction fuel with
  | zero => intro i; exact Or.inl rfl
  | succ fuel ih =>
    intro i
    unfold selector_loop
    split_ifs with hlt hm
    · exact Or.inr hlt
    · exact ih _
    · exact Or.inl rfl

/-- After the zeroing and the scan, `selectorIndex` is an index of the table. -/
theorem scanned_selectorIndex_lt (selector : List Nat) (c : context_t) :
    (selector_loop selector (memset_zero c) (NUM_SELECTORS + 1) 0).2.selectorIndex
      < NUM_SELECTORS := by
  rcases selector_loop_selectorIndex selector (memset_zero c) (NUM_SELECTORS + 1) 0 with h | h
  · rw [h]
    show 0 < NUM_SELECTORS
    decide
  · exact h

/-- A number below `NUM_SELECTORS` is the label of one of the 17 cases of the switch. -/
theorem switch_cases_cover (s : Nat) (hs : s < NUM_SELECTORS) :
    (s = DEPOSIT_ALL ∨ s = WITHDRAW_ALL ∨ s = CLAIM ∨ s = EXIT ∨ s = GET_REWARDS) ∨
    (s = DEPOSIT ∨ s = DEPOSIT_TO ∨ s = WITHDRAW ∨ s = WITHDRAW_TO ∨ s = WITHDRAW_TO_SLIPPAGE
      ∨ s = IB_MINT ∨ s = IB_REDEEM ∨ s = IB_REDEEM_UNDERLYING ∨ s = IB_BORROW
      ∨ s = IB_REPAY_BORROW) ∨
    (s = ZAP_IN ∨ s = ZAP_IN_PICKLE) := by
  simp only [NUM_SELECTORS, DEPOSIT_ALL, DEPOSIT, DEPOSIT_TO, WITHDRAW_ALL, WITHDRAW,
    WITHDRAW_TO, WITHDRAW_TO_SLIPPAGE, ZAP_IN, ZAP_IN_PICKLE, IB_MINT, IB_REDEEM,
    IB_REDEEM_UNDERLYING, IB_BORROW, IB_REPAY_BORROW, CLAIM, EXIT, GET_REWARDS] at hs ⊢
  omega

/-- Once both checks pass the call ends in OK with the `selectorIndex` the scan left: the
default case of the switch is not taken. -/
theorem handle_init_contract_of_checks (hdr : plugin_header) (msg : ethPluginInitContract_t)
    (hv : msg.interfaceVersion = hdr.ETH_PLUGIN_INTERFACE_VERSION_LATEST)
    (hc : hdr.sizeof_context_t ≤ msg.pluginContextLength) :
    (handle_init_contract hdr msg).result = ETH_PLUGIN_RESULT_OK ∧
    (handle_init_contract hdr msg).pluginContext.selectorIndex
      = (selector_loop msg.selector (memset_zero msg.pluginContext)
          (NUM_SELECTORS + 1) 0).2.selectorIndex := by
  have hcover := switch_cases_cover _ (scanned_selectorIndex_lt msg.selector msg.pluginContext)
  unfold handle_init_contract
  rw [if_neg (not_not.2 hv), if_neg (not_lt.2 hc)]
  simp only
  split_ifs <;>
    first
    | exact ⟨rfl, rfl⟩
    | (exfalso; rcases hcover with h | h | h <;> contradiction)

/-- C16: the call finishes with result ERROR if and only if the interface version is the
latest one and `pluginContextLength < sizeof(context_t)`.  The default branch of the switch
is not reachable: the `selectorIndex` the scan leaves is one of the 17 case labels. -/
theorem error_iff_undersized (hdr : plugin_header) (msg : ethPluginInitContract_t) :
    ((handle_init_contract hdr msg).result = ETH_PLUGIN_RESULT_ERROR ↔
      (msg.interfaceVersion = hdr.ETH_PLUGIN_INTERFACE_VERSION_LATEST ∧
        msg.pluginContextLength < hdr.sizeof_context_t)) ∧
    (selector_loop msg.selector (memset_zero msg.pluginContext)
        (NUM_SELECTORS + 1) 0).2.selectorIndex
      ∈ [DEPOSIT_ALL, WITHDRAW_ALL, CLAIM, EXIT, GET_REWARDS, DEPOSIT, DEPOSIT_TO, WITHDRAW,
          WITHDRAW_TO, WITHDRAW_TO_SLIPPAGE, IB_MINT, IB_REDEEM, IB_REDEEM_UNDERLYING,
          IB_BORROW, IB_REPAY_BORROW, ZAP_IN, ZAP_IN_PICKLE] := by
  constructor
  · constructor
    · intro herr
      by_cases hv : msg.interfaceVersion = hdr.ETH_PLUGIN_INTERFACE_VERSION_LATEST
      · by_cases hc : msg.pluginContextLength < hdr.sizeof_context_t
        · exact ⟨hv, hc⟩
        · rw [(handle_init_contract_of_checks hdr msg hv (not_lt.1 hc)).1] at herr
          cases herr
      · rw [handle_init_contract_of_version hdr msg hv] at herr
        cases herr
    · rintro ⟨hv, hc⟩
      rw [handle_init_contract_of_undersized hdr msg hv hc]
  · have hcover :=
      switch_cases_cover _ (scanned_selectorIndex_lt msg.selector msg.pluginContext)
    simp only [List.mem_cons, List.mem_singleton, List.not_mem_nil, or_false]
    tauto

/-- C17: after every call that passes the version and capacity checks, `selectorIndex` is
below `NUM_SELECTORS`, for every selector, in the table or not: it is an index of
`YEARN_SELECTORS`. -/
theorem selectorIndex_lt_num_selectors (hdr : plugin_header) (msg : ethPluginInitContract_t)
    (hv : msg.interfaceVersion = hdr.ETH_PLUGIN_INTERFACE_VERSION_LATEST)
    (hc : hdr.sizeof_context_t ≤ msg.pluginContextLength) :
    (handle_init_contract hdr msg).pluginContext.selectorIndex < NUM_SELECTORS ∧
    (handle_init_contract hdr msg).pluginContext.selectorIndex < YEARN_SELECTORS.length := by
  rw [YEARN_SELECTORS_length, (handle_init_contract_of_checks hdr msg hv hc).2]
  exact ⟨scanned_selectorIndex_lt _ _, scanned_selectorIndex_lt _ _⟩

/-- C17 at a selector that is not in the table and a context that held index 7. -/
theorem selectorIndex_lt_num_selectors_witness :
    [0xff, 0xff, 0xff, 0xff] ∉ YEARN_SELECTORS ∧
    (handle_init_contract sample_header
      (sample_msg [0xff, 0xff, 0xff, 0xff])).pluginContext.selectorIndex < NUM_SELECTORS ∧
    (handle_init_contract sample_header
      (sample_msg [0xff, 0xff, 0xff, 0xff])).pluginContext.selectorIndex
      < YEARN_SELECTORS.length :=
  ⟨by decide,
   selectorIndex_lt_num_selectors sample_header (sample_msg [0xff, 0xff, 0xff, 0xff])
     (by decide) (by decide)⟩

end Yearn
